import Mathlib

/-!
# Verification of the GTFS journey-planning engine (`src/services/bus.service.ts`)

A shallow embedding of the `BusService` class.  JavaScript `Map`/`Set`
objects are modelled by insertion-ordered association lists (JS maps
iterate in insertion order and `set` on an existing key keeps its
position).  JS numbers are modelled by `ℚ`, with `Option ℚ` / `Option ℤ`
where `NaN` can arise (`none` = `NaN`); JS `NaN` comparison semantics
(`NaN < x`, `NaN <= x`, … are all `false`; a sort comparator returning
`NaN` is treated as `0` by `Array.prototype.sort`) are modelled by the
`ltN` / `leB` / `geB` / `seqLE` helpers.  `Array.prototype.sort` (stable
since ES2019) is modelled by the stable insertion sort `jsSort`.
Exceptions thrown on the query path are modelled with `Except String`.
-/

set_option maxRecDepth 2000

namespace BusSpec

/-! ## Insertion-ordered association lists (model of JS `Map`) -/

/-- `Map.get(k)`: the value at the first (unique) entry with key `k`. -/
def amGet? {α : Type} (m : List (String × α)) (k : String) : Option α :=
  (m.find? (fun e => e.1 == k)).map (fun e => e.2)

/-- `Map.set(k, v)`: replace in place if the key exists, else append. -/
def amSet {α : Type} (m : List (String × α)) (k : String) (v : α) :
    List (String × α) :=
  match m with
  | [] => [(k, v)]
  | e :: rest => if e.1 == k then (k, v) :: rest else e :: amSet rest k v

/-- `Map.has(k)`. -/
def amHas {α : Type} (m : List (String × α)) (k : String) : Bool :=
  (amGet? m k).isSome

/-- The `if (!m.has(k)) m.set(k, []); m.get(k).push(v)` pattern. -/
def amPush {α : Type} (m : List (String × List α)) (k : String) (v : α) :
    List (String × List α) :=
  match amGet? m k with
  | some l => amSet m k (l ++ [v])
  | none => m ++ [(k, [v])]

/-- The `if (!m.has(k)) m.set(k, new Set()); m.get(k).add(v)` pattern
(a JS `Set` is an insertion-ordered list without duplicates). -/
def amAddToSet (m : List (String × List String)) (k v : String) :
    List (String × List String) :=
  match amGet? m k with
  | some s => amSet m k (if s.contains v then s else s ++ [v])
  | none => m ++ [(k, [v])]

/-- `Array.prototype.indexOf`, with `none` for JS `-1`. -/
def jsIndexOf (l : List String) (x : String) : Option ℕ :=
  l.findIdx? (fun y => y == x)

/-! ## Stable sort (model of `Array.prototype.sort`)

`jsInsert le x l` inserts `x` before the first element `y` with
`le x y = true` (i.e. comparator `cmp x y ≤ 0`).  Sorting by inserting
each element into the sorted tail is a stable sort, hence extensionally
equal to the engine's TimSort for any consistent comparator. -/

def jsInsert {α : Type} (le : α → α → Bool) (x : α) : List α → List α
  | [] => [x]
  | y :: ys => if le x y then x :: y :: ys else y :: jsInsert le x ys

def jsSort {α : Type} (le : α → α → Bool) : List α → List α
  | [] => []
  | x :: xs => jsInsert le x (jsSort le xs)

/-! ## JS number parsing and formatting -/

/-- Value of a list of decimal digit characters. -/
def digitsVal (cs : List Char) : ℕ :=
  cs.foldl (fun a c => a * 10 + (c.toNat - 48)) 0

/-- Strip leading and trailing spaces (the only whitespace occurring in
the data) from a character list — the JS `trim` of the parsers. -/
def charTrim (cs : List Char) : List Char :=
  ((cs.dropWhile (fun c => c = ' ')).reverse.dropWhile (fun c => c = ' ')).reverse

/-- Split a character list at a separator character, keeping empty
pieces — `String.prototype.split` with a one-character separator. -/
def splitCharAux (sep : Char) : List Char → List Char → List (List Char)
  | [], acc => [acc.reverse]
  | c :: rest, acc =>
      if c = sep then acc.reverse :: splitCharAux sep rest []
      else splitCharAux sep rest (c :: acc)

/-- `parseInt(s)` (radix 10): sign and longest digit prefix; `none` = `NaN`. -/
def parseIntJS (s : String) : Option ℤ :=
  let cs := charTrim s.toList
  match cs with
  | '-' :: rest =>
      let d := rest.takeWhile Char.isDigit
      if d.isEmpty then none else some (-(digitsVal d : ℤ))
  | '+' :: rest =>
      let d := rest.takeWhile Char.isDigit
      if d.isEmpty then none else some (digitsVal d : ℤ)
  | _ =>
      let d := cs.takeWhile Char.isDigit
      if d.isEmpty then none else some (digitsVal d : ℤ)

/-- `parseFloat(s)`: sign, digit prefix, optional fraction; `none` = `NaN`.
(Exponents and special forms do not occur in the GTFS numeric fields.) -/
def parseFloatJS (s : String) : Option ℚ :=
  let cs := charTrim s.toList
  let (sgn, cs1) :=
    match cs with
    | '-' :: r => ((-1 : ℚ), r)
    | '+' :: r => ((1 : ℚ), r)
    | _ => ((1 : ℚ), cs)
  let d1 := cs1.takeWhile Char.isDigit
  let cs2 := cs1.dropWhile Char.isDigit
  let d2 :=
    match cs2 with
    | '.' :: r => r.takeWhile Char.isDigit
    | _ => []
  if d1.isEmpty && d2.isEmpty then none
  else some (sgn * ((digitsVal d1 : ℚ) + (digitsVal d2 : ℚ) / (10 : ℚ) ^ d2.length))

/-- `Number(·)` on a character list: whole-string conversion;
empty/whitespace gives `0`; `none` = `NaN`.  (Exponents and special
forms do not occur here.) -/
def numberJSChars (raw : List Char) : Option ℚ :=
  let cs := charTrim raw
  if cs.isEmpty then some 0
  else
    let (sgn, cs1) :=
      match cs with
      | '-' :: r => ((-1 : ℚ), r)
      | '+' :: r => ((1 : ℚ), r)
      | _ => ((1 : ℚ), cs)
    let d1 := cs1.takeWhile Char.isDigit
    let cs2 := cs1.dropWhile Char.isDigit
    match cs2 with
    | [] => if d1.isEmpty then none else some (sgn * (digitsVal d1 : ℚ))
    | '.' :: r =>
        let d2 := r.takeWhile Char.isDigit
        let rest := r.dropWhile Char.isDigit
        if rest.isEmpty && !(d1.isEmpty && d2.isEmpty) then
          some (sgn * ((digitsVal d1 : ℚ) + (digitsVal d2 : ℚ) / (10 : ℚ) ^ d2.length))
        else none
    | _ => none

/-- JS `a < b` on possibly-`NaN` numbers: any `NaN` makes it `false`. -/
def ltN (a b : Option ℚ) : Bool :=
  match a, b with
  | some x, some y => decide (x < y)
  | _, _ => false

/-- JS `a >= b` on possibly-`NaN` integers: any `NaN` makes it `false`. -/
def geB (a b : Option ℤ) : Bool :=
  match a, b with
  | some x, some y => decide (y ≤ x)
  | _, _ => false

/-- JS `a <= b` on possibly-`NaN` integers: any `NaN` makes it `false`. -/
def leB (a b : Option ℤ) : Bool :=
  match a, b with
  | some x, some y => decide (x ≤ y)
  | _, _ => false

/-- JS `a > b` on possibly-`NaN` integers: any `NaN` makes it `false`. -/
def gtB (a b : Option ℤ) : Bool :=
  match a, b with
  | some x, some y => decide (y < x)
  | _, _ => false

/-- Comparator `(a, b) => a - b` as a `le` test: `a - b <= 0`; a `NaN`
result is treated as `0` by `Array.prototype.sort`, i.e. as "equal". -/
def seqLE (a b : Option ℤ) : Bool :=
  match a, b with
  | some x, some y => decide (x ≤ y)
  | _, _ => true

/-- NaN-propagating addition of JS numbers. -/
def addO (a b : Option ℤ) : Option ℤ :=
  match a, b with
  | some x, some y => some (x + y)
  | _, _ => none

/-- Render a JS number that is either an integer or `NaN`. -/
def optIntStr (o : Option ℤ) : String :=
  match o with
  | some n => toString n
  | none => "NaN"

/-- Left-pad with zeros to width `w`. -/
def padZeros (s : String) (w : ℕ) : String :=
  String.mk (List.replicate (w - s.length) '0') ++ s

/-- `Number.prototype.toFixed(f)`: round `|q|·10^f` to the nearest
integer, ties to the larger value, then place the decimal point. -/
def toFixedQ (f : ℕ) (q : ℚ) : String :=
  let sgn := if q < 0 then "-" else ""
  let n : ℕ := (⌊|q| * (10 : ℚ) ^ f + 1 / 2⌋).toNat
  if f = 0 then sgn ++ toString n
  else sgn ++ toString (n / 10 ^ f) ++ "." ++ padZeros (toString (n % 10 ^ f)) f

deriving instance DecidableEq for Except

/-! ## Data model (the interfaces of `bus.service.ts`) -/

structure GeoLocation where
  lat : ℚ
  lng : ℚ
  deriving DecidableEq, Repr

/-- `Stop`; `stop_lat`/`stop_lon` hold `parseFloat` results (`none` = `NaN`). -/
structure Stop where
  stop_id : String
  stop_name : String
  stop_lat : Option ℚ
  stop_lon : Option ℚ
  deriving DecidableEq, Repr

/-- `StopTime`; `stop_sequence` holds a `parseInt` result (`none` = `NaN`). -/
structure StopTime where
  trip_id : String
  arrival_time : String
  departure_time : String
  stop_id : String
  stop_sequence : Option ℤ
  deriving DecidableEq, Repr

structure Trip where
  route_id : String
  service_id : String
  trip_id : String
  trip_headsign : String
  deriving DecidableEq, Repr

structure Route where
  route_id : String
  route_short_name : String
  route_long_name : String
  route_type : String
  deriving DecidableEq, Repr

inductive SegType where
  | walk
  | bus
  deriving DecidableEq, Repr

structure SegPoint where
  lat : Option ℚ
  lng : Option ℚ
  name : String
  deriving DecidableEq, Repr

structure PathPoint where
  lat : Option ℚ
  lng : Option ℚ
  deriving DecidableEq, Repr

/-- An element of a bus segment's `stops` list: `{name, lat, lng, sequence, time}`. -/
structure StopPoint where
  name : String
  lat : Option ℚ
  lng : Option ℚ
  sequence : Option ℤ
  time : String
  deriving DecidableEq, Repr

/-- An element of `BusRouteResult.path`: `{lat, lng, name, sequence}`. -/
structure PathMapPoint where
  lat : Option ℚ
  lng : Option ℚ
  name : String
  sequence : Option ℤ
  deriving DecidableEq, Repr

structure RouteSegment where
  type : SegType
  start : SegPoint
  endP : SegPoint
  distance : String
  duration : String
  instruction : String
  path : List PathPoint
  stops : Option (List StopPoint)
  color : String
  deriving DecidableEq, Repr

structure BusRouteResult where
  route_name : String
  start_stop : String
  end_stop : String
  departure_time : String
  arrival_time : String
  duration : String
  stops_count : ℕ
  fare : ℤ
  path : List PathMapPoint
  segments : List RouteSegment
  total_distance : String
  deriving DecidableEq, Repr

/-- An element of the nearby-stop lists: `{ stop, distance }`. -/
structure NearbyStop where
  stop : Stop
  distance : ℚ
  deriving DecidableEq, Repr

/-- The in-memory indices of `BusService` (the class fields). -/
structure BusServiceState where
  stops : List (String × Stop)
  stopTimesByStopId : List (String × List StopTime)
  stopTimesByTripId : List (String × List StopTime)
  trips : List (String × Trip)
  routes : List (String × Route)
  routesByStop : List (String × List String)
  stopsByRoute : List (String × List String)
  isLoaded : Bool
  deriving DecidableEq, Repr

def emptyState : BusServiceState :=
  ⟨[], [], [], [], [], [], [], false⟩

/-! ## Feed loading (`loadData`) -/

/-- A parsed row of `stops.csv` as produced by `csv-parse` with
`columns: true` (string fields; a missing/empty cell is `""`). -/
structure RawStop where
  stop_id : String
  stop_name : String
  stop_lat : String
  stop_lon : String
  deriving DecidableEq, Repr

structure RawTrip where
  route_id : String
  service_id : String
  trip_id : String
  trip_headsign : String
  deriving DecidableEq, Repr

structure RawRoute where
  route_id : String
  route_short_name : String
  route_long_name : String
  route_type : String
  deriving DecidableEq, Repr

structure RawStopTime where
  trip_id : String
  arrival_time : String
  departure_time : String
  stop_id : String
  stop_sequence : String
  deriving DecidableEq, Repr

/-- One `stopTimesData.forEach` step: index a stop-time row by stop id and
trip id and record the trip's route in `routesByStop` (lines 141–172). -/
def loadStopTimeStep (trips : List (String × Trip))
    (acc : List (String × List StopTime) × List (String × List StopTime) ×
      List (String × List String))
    (s : RawStopTime) :
    List (String × List StopTime) × List (String × List StopTime) ×
      List (String × List String) :=
  let st : StopTime :=
    ⟨s.trip_id, s.arrival_time, s.departure_time, s.stop_id, parseIntJS s.stop_sequence⟩
  let byStop := amPush acc.1 st.stop_id st
  let byTrip := amPush acc.2.1 st.trip_id st
  let rbs :=
    match amGet? trips st.trip_id with
    | some trip => amAddToSet acc.2.2 st.stop_id trip.route_id
    | none => acc.2.2
  (byStop, byTrip, rbs)

/-- One `routeSampleTrip.forEach` step (lines 177–185): sort the sample
trip's stop-times by `stop_sequence` — `Array.prototype.sort` sorts the
stored array in place, so the `stopTimesByTripId` entry is updated too —
and record the route's ordered stop ids. -/
def loadSampleStep
    (acc : List (String × List String) × List (String × List StopTime))
    (e : String × String) :
    List (String × List String) × List (String × List StopTime) :=
  match amGet? acc.2 e.2 with
  | some tripStops =>
      let sorted := jsSort (fun a b => seqLE a.stop_sequence b.stop_sequence) tripStops
      (amSet acc.1 e.1 (sorted.map (fun st => st.stop_id)), amSet acc.2 e.2 sorted)
  | none => acc

/-- `loadData` (lines 82–194).  File contents are passed as parsed rows;
`none` models an absent file (`fs.readFileSync` throws, the `catch` at
line 191 swallows the error and `isLoaded` stays `false`).  The
`existsSync` guard at line 91 checks only stops, stop_times and trips;
the routes file is read unconditionally at line 122, so when it is
absent the load aborts after stops and trips were already stored. -/
def loadData (stopsData? : Option (List RawStop))
    (stopTimesData? : Option (List RawStopTime))
    (tripsData? : Option (List RawTrip))
    (routesData? : Option (List RawRoute)) : BusServiceState :=
  match stopsData?, stopTimesData?, tripsData? with
  | some stopsData, some stopTimesData, some tripsData =>
      let stops := stopsData.foldl
        (fun m s => amSet m s.stop_id
          ⟨s.stop_id, s.stop_name, parseFloatJS s.stop_lat, parseFloatJS s.stop_lon⟩) []
      let trips := tripsData.foldl
        (fun m t => amSet m t.trip_id ⟨t.route_id, t.service_id, t.trip_id, t.trip_headsign⟩) []
      match routesData? with
      | none => { emptyState with stops := stops, trips := trips }
      | some routesData =>
          let routes := routesData.foldl
            (fun m r => amSet m r.route_id
              ⟨r.route_id, r.route_short_name, r.route_long_name, r.route_type⟩) []
          let routeSampleTrip := tripsData.foldl
            (fun m t => if amHas m t.route_id then m else m ++ [(t.route_id, t.trip_id)]) []
          let idx := stopTimesData.foldl (loadStopTimeStep trips) ([], [], [])
          let sampled := routeSampleTrip.foldl loadSampleStep ([], idx.2.1)
          { stops := stops
            stopTimesByStopId := idx.1
            stopTimesByTripId := sampled.2
            trips := trips
            routes := routes
            routesByStop := idx.2.2
            stopsByRoute := sampled.1
            isLoaded := true }
  | _, _, _ => emptyState

/-! ## Geo distance and nearby stops -/

/-- Modelled from the spec: `calculateDistance` lives in
`src/utils/fare-calculator.ts`, which is not part of the provided
sources.  §4.3 specifies it as the great-circle (Haversine, R = 6371 km)
distance — a transcendental function, so the embedding abstracts it as a
parameter `dist lat1 lng1 lat2 lng2` of the query functions; every
theorem below holds for an arbitrary such function.  `distO` applies it
with JS `NaN` propagation for stops whose coordinates failed to parse. -/
def distO (dist : ℚ → ℚ → ℚ → ℚ → ℚ) (lat lng : ℚ) (olat olng : Option ℚ) :
    Option ℚ :=
  match olat, olng with
  | some a, some b => some (dist lat lng a b)
  | _, _ => none

/-- The `.map(...).filter(item => item.distance <= maxDistanceKm)` stage
of `findNearbyStopsWithDistance` (lines 738–743), in stops-map insertion
order: each stop paired with its distance, keeping those within
`maxDistanceKm` (a `NaN` distance fails the `<=` test). -/
def nearbyCandidates (st : BusServiceState) (dist : ℚ → ℚ → ℚ → ℚ → ℚ)
    (location : GeoLocation) (maxDistanceKm : ℚ) : List NearbyStop :=
  (st.stops.map (fun e => e.2)).filterMap (fun s =>
    match distO dist location.lat location.lng s.stop_lat s.stop_lon with
    | some d => if d ≤ maxDistanceKm then some (⟨s, d⟩ : NearbyStop) else none
    | none => none)

/-- `findNearbyStopsWithDistance` (lines 735–746): the within-range
(stop, distance) pairs sorted ascending by distance, first `limit` kept. -/
def findNearbyStopsWithDistance (st : BusServiceState)
    (dist : ℚ → ℚ → ℚ → ℚ → ℚ) (location : GeoLocation)
    (limit : ℕ := 20) (maxDistanceKm : ℚ := 2) : List NearbyStop :=
  (jsSort (fun a b => decide (a.distance ≤ b.distance))
    (nearbyCandidates st dist location maxDistanceKm)).take limit

/-! ## Time parsing and durations -/

/-- `parseTime` (lines 515–518) and the `toSeconds` helpers (lines
749–752): `t.split(':').map(Number)` destructured as `[h, m, s]`; a
missing or malformed component makes the sum `NaN` (`none`). -/
def parseTime (timeStr : String) : Option ℚ :=
  match (splitCharAux ':' timeStr.toList []).map numberJSChars with
  | h :: m :: s :: _ =>
      match h, m, s with
      | some h, some m, some s => some (h * 3600 + m * 60 + s)
      | _, _, _ => none
  | _ => none

/-- `calculateDurationInMinutes` (lines 748–755): `Math.floor` of the
seconds difference over 60; `NaN` in gives `NaN` out. -/
def calculateDurationInMinutes (start endT : String) : Option ℤ :=
  match parseTime start, parseTime endT with
  | some a, some b => some ⌊(b - a) / 60⌋
  | _, _ => none

/-- `Math.ceil((distKm * 1000) / 80)` — the walk-minutes computation used
at lines 531, 534, 626 and 629. -/
def walkMinutes (distKm : ℚ) : ℤ :=
  ⌈distKm * 1000 / 80⌉

/-! ## Leg extraction and itinerary assembly -/

/-- `extractRouteStops` (lines 718–733): stop-times with sequence in
`[startSeq, endSeq]` (JS `>=`/`<=`, false on `NaN`), sorted by sequence,
projected through the stops index; unresolvable stop ids are dropped. -/
def extractRouteStops (st : BusServiceState) (tripStopTimes : List StopTime)
    (startSeq endSeq : Option ℤ) : List StopPoint :=
  ((jsSort (fun a b => seqLE a.stop_sequence b.stop_sequence)
      (tripStopTimes.filter (fun x =>
        geB x.stop_sequence startSeq && leB x.stop_sequence endSeq))).filterMap
    (fun x =>
      match amGet? st.stops x.stop_id with
      | some s => some (⟨s.stop_name, s.stop_lat, s.stop_lon, x.stop_sequence,
          x.arrival_time⟩ : StopPoint)
      | none => none))

/-- JS `a || b` on the route-name strings (`""` is falsy). -/
def jsOr (a b : String) : String :=
  if a = "" then b else a

/-- `buildRouteResult` (lines 520–601). -/
def buildRouteResult (st : BusServiceState) (pickup drop : GeoLocation)
    (pStopItem dStopItem : NearbyStop) (trip : Trip) (_route : Route)
    (pSt dSt : StopTime) (tripStopTimes : List StopTime) (routeName : String) :
    BusRouteResult :=
  let busDurationMins := calculateDurationInMinutes pSt.departure_time dSt.arrival_time
  let walk1DistKm := pStopItem.distance
  let walk1TimeMins := walkMinutes walk1DistKm
  let walk2DistKm := dStopItem.distance
  let walk2TimeMins := walkMinutes walk2DistKm
  let routeStops := extractRouteStops st tripStopTimes pSt.stop_sequence dSt.stop_sequence
  let seg1 : RouteSegment :=
    { type := SegType.walk
      start := ⟨some pickup.lat, some pickup.lng, "Your Location"⟩
      endP := ⟨pStopItem.stop.stop_lat, pStopItem.stop.stop_lon, pStopItem.stop.stop_name⟩
      distance := toFixedQ 0 (walk1DistKm * 1000) ++ "m"
      duration := toString walk1TimeMins ++ " mins"
      instruction := "Walk to " ++ pStopItem.stop.stop_name
      path := [⟨some pickup.lat, some pickup.lng⟩,
        ⟨pStopItem.stop.stop_lat, pStopItem.stop.stop_lon⟩]
      stops := none
      color := "#94a3b8" }
  let seg2 : RouteSegment :=
    { type := SegType.bus
      start := ⟨pStopItem.stop.stop_lat, pStopItem.stop.stop_lon, pStopItem.stop.stop_name⟩
      endP := ⟨dStopItem.stop.stop_lat, dStopItem.stop.stop_lon, dStopItem.stop.stop_name⟩
      distance := toFixedQ 1 ((routeStops.length : ℚ) * (1 / 2)) ++ " km"
      duration := optIntStr busDurationMins ++ " mins"
      instruction := "Take bus " ++ routeName ++ " towards " ++ trip.trip_headsign
      path := routeStops.map (fun s => ⟨s.lat, s.lng⟩)
      stops := some routeStops
      color := "#f97316" }
  let seg3 : RouteSegment :=
    { type := SegType.walk
      start := ⟨dStopItem.stop.stop_lat, dStopItem.stop.stop_lon, dStopItem.stop.stop_name⟩
      endP := ⟨some drop.lat, some drop.lng, "Destination"⟩
      distance := toFixedQ 0 (walk2DistKm * 1000) ++ "m"
      duration := toString walk2TimeMins ++ " mins"
      instruction := "Walk to Destination"
      path := [⟨dStopItem.stop.stop_lat, dStopItem.stop.stop_lon⟩,
        ⟨some drop.lat, some drop.lng⟩]
      stops := none
      color := "#94a3b8" }
  let totalDuration := addO (some walk1TimeMins) (addO busDurationMins (some walk2TimeMins))
  let totalFare : ℚ := 5 + (routeStops.length : ℚ) * (3 / 2)
  { route_name := routeName
    start_stop := pStopItem.stop.stop_name
    end_stop := dStopItem.stop.stop_name
    departure_time := pSt.departure_time
    arrival_time := dSt.arrival_time
    duration := optIntStr totalDuration ++ " mins"
    stops_count := routeStops.length
    fare := ⌈totalFare⌉
    path := routeStops.map (fun s => ⟨s.lat, s.lng, s.name, s.sequence⟩)
    segments := [seg1, seg2, seg3]
    total_distance :=
      toFixedQ 1 (walk1DistKm + walk2DistKm + (routeStops.length : ℚ) * (1 / 2)) ++ " km" }

/-- `buildTransferRouteResult` (lines 603–716).  The `transferStop`
argument is non-optional here: the only call site (line 459) passes a
stop obtained from the stops index at line 422, so the
`if (!transferStop) throw` guard at line 613 is unreachable. -/
def buildTransferRouteResult (st : BusServiceState) (pickup drop : GeoLocation)
    (pStopItem dStopItem : NearbyStop) (_trip1 : Trip) (route1 : Route)
    (_trip2 : Trip) (route2 : Route) (pSt tSt1 tSt2 dSt : StopTime)
    (trip1Stops trip2Stops : List StopTime) (transferStop : Stop) :
    BusRouteResult :=
  let routeName1 := jsOr route1.route_short_name route1.route_long_name
  let routeName2 := jsOr route2.route_short_name route2.route_long_name
  let leg1Stops := extractRouteStops st trip1Stops pSt.stop_sequence tSt1.stop_sequence
  let leg2Stops := extractRouteStops st trip2Stops tSt2.stop_sequence dSt.stop_sequence
  let dur1 := calculateDurationInMinutes pSt.departure_time tSt1.arrival_time
  let transferWait := calculateDurationInMinutes tSt1.arrival_time tSt2.departure_time
  let dur2 := calculateDurationInMinutes tSt2.departure_time dSt.arrival_time
  let walk1Dist := pStopItem.distance
  let walk1Time := walkMinutes walk1Dist
  let walk2Dist := dStopItem.distance
  let walk2Time := walkMinutes walk2Dist
  let seg1 : RouteSegment :=
    { type := SegType.walk
      start := ⟨some pickup.lat, some pickup.lng, "Your Location"⟩
      endP := ⟨pStopItem.stop.stop_lat, pStopItem.stop.stop_lon, pStopItem.stop.stop_name⟩
      distance := toFixedQ 0 (walk1Dist * 1000) ++ "m"
      duration := toString walk1Time ++ " mins"
      instruction := "Walk to " ++ pStopItem.stop.stop_name
      path := [⟨some pickup.lat, some pickup.lng⟩,
        ⟨pStopItem.stop.stop_lat, pStopItem.stop.stop_lon⟩]
      stops := none
      color := "#94a3b8" }
  let seg2 : RouteSegment :=
    { type := SegType.bus
      start := ⟨pStopItem.stop.stop_lat, pStopItem.stop.stop_lon, pStopItem.stop.stop_name⟩
      endP := ⟨transferStop.stop_lat, transferStop.stop_lon, transferStop.stop_name⟩
      distance := toFixedQ 1 ((leg1Stops.length : ℚ) * (1 / 2)) ++ " km"
      duration := optIntStr dur1 ++ " mins"
      instruction := "Bus " ++ routeName1 ++ " to " ++ transferStop.stop_name
      path := leg1Stops.map (fun s => ⟨s.lat, s.lng⟩)
      stops := some leg1Stops
      color := "#f97316" }
  let seg3 : RouteSegment :=
    { type := SegType.walk
      start := ⟨transferStop.stop_lat, transferStop.stop_lon, transferStop.stop_name⟩
      endP := ⟨transferStop.stop_lat, transferStop.stop_lon, transferStop.stop_name⟩
      distance := "0m"
      duration := optIntStr transferWait ++ " mins"
      instruction := "Transfer at " ++ transferStop.stop_name ++ " (Wait " ++
        optIntStr transferWait ++ "m)"
      path := []
      stops := none
      color := "#94a3b8" }
  let seg4 : RouteSegment :=
    { type := SegType.bus
      start := ⟨transferStop.stop_lat, transferStop.stop_lon, transferStop.stop_name⟩
      endP := ⟨dStopItem.stop.stop_lat, dStopItem.stop.stop_lon, dStopItem.stop.stop_name⟩
      distance := toFixedQ 1 ((leg2Stops.length : ℚ) * (1 / 2)) ++ " km"
      duration := optIntStr dur2 ++ " mins"
      instruction := "Bus " ++ routeName2 ++ " to " ++ dStopItem.stop.stop_name
      path := leg2Stops.map (fun s => ⟨s.lat, s.lng⟩)
      stops := some leg2Stops
      color := "#ea580c" }
  let seg5 : RouteSegment :=
    { type := SegType.walk
      start := ⟨dStopItem.stop.stop_lat, dStopItem.stop.stop_lon, dStopItem.stop.stop_name⟩
      endP := ⟨some drop.lat, some drop.lng, "Destination"⟩
      distance := toFixedQ 0 (walk2Dist * 1000) ++ "m"
      duration := toString walk2Time ++ " mins"
      instruction := "Walk to Destination"
      path := [⟨dStopItem.stop.stop_lat, dStopItem.stop.stop_lon⟩,
        ⟨some drop.lat, some drop.lng⟩]
      stops := none
      color := "#94a3b8" }
  let totalDuration := addO (some walk1Time) (addO dur1 (addO transferWait
    (addO dur2 (some walk2Time))))
  let totalFare : ℚ := 5 + (leg1Stops.length : ℚ) * (3 / 2) + 5 +
    (leg2Stops.length : ℚ) * (3 / 2)
  { route_name := routeName1 ++ " + " ++ routeName2
    start_stop := pStopItem.stop.stop_name
    end_stop := dStopItem.stop.stop_name
    departure_time := pSt.departure_time
    arrival_time := dSt.arrival_time
    duration := optIntStr totalDuration ++ " mins"
    stops_count := leg1Stops.length + leg2Stops.length
    fare := ⌈totalFare⌉
    path := leg1Stops.map (fun s => ⟨s.lat, s.lng, s.name, s.sequence⟩) ++
      leg2Stops.map (fun s => ⟨s.lat, s.lng, s.name, s.sequence⟩)
    segments := [seg1, seg2, seg3, seg4, seg5]
    total_distance :=
      toFixedQ 1 (walk1Dist + walk2Dist +
        ((leg1Stops.length + leg2Stops.length : ℕ) : ℚ) * (1 / 2)) ++ " km" }

/-! ## Trip search (`findTripForLeg`, lines 483–513) -/

structure TripLegInfo where
  trip : Trip
  start : StopTime
  endSt : StopTime
  stops : List StopTime
  deriving DecidableEq, Repr

/-- The scan over `stopTimesByStopId[startStopId]` inside `findTripForLeg`. -/
def ftflScan (st : BusServiceState) (routeId endStopId : String) :
    List StopTime → Option TripLegInfo
  | [] => none
  | sTime :: rest =>
      match amGet? st.trips sTime.trip_id with
      | some trip =>
          if trip.route_id == routeId then
            match amGet? st.stopTimesByTripId sTime.trip_id with
            | some tripStops =>
                match tripStops.find? (fun s2 =>
                    s2.stop_id == endStopId && gtB s2.stop_sequence sTime.stop_sequence) with
                | some endSt => some ⟨trip, sTime, endSt, tripStops⟩
                | none => ftflScan st routeId endStopId rest
            | none => ftflScan st routeId endStopId rest
          else ftflScan st routeId endStopId rest
      | none => ftflScan st routeId endStopId rest

/-- `findTripForLeg(routeId, startStopId, endStopId)`: first stop-time at
the start stop whose trip is on the route and reaches the end stop at a
greater sequence. -/
def findTripForLeg (st : BusServiceState) (routeId startStopId endStopId : String) :
    Option TripLegInfo :=
  match amGet? st.stopTimesByStopId startStopId with
  | none => none
  | some startStopTimes => ftflScan st routeId endStopId startStopTimes

/-! ## Direct search (`findDirectRoutes`, lines 238–339) -/

/-- The `validTrip` predicate (lines 301–310): the stop-time's trip is on
the route and that trip reaches the drop stop at a greater sequence. -/
def validTripPred (st : BusServiceState) (routeId dStopId : String)
    (st0 : StopTime) : Bool :=
  match amGet? st.trips st0.trip_id with
  | some trip =>
      trip.route_id == routeId &&
        (((amGet? st.stopTimesByTripId st0.trip_id).map (fun tripStops =>
          tripStops.any (fun ts =>
            ts.stop_id == dStopId && gtB ts.stop_sequence st0.stop_sequence))).getD false)
  | none => false

/-- The body of the direct-search double loop for one
(pickup stop, drop stop) pair (lines 284–331); `acc` is
(results so far, `seenRoutes` keys so far). -/
def fdrBody (st : BusServiceState) (pickup drop : GeoLocation) (routeId : String)
    (routeStops : List String) (pStopItem dStopItem : NearbyStop)
    (acc : List BusRouteResult × List String) :
    List BusRouteResult × List String :=
  match jsIndexOf routeStops pStopItem.stop.stop_id,
      jsIndexOf routeStops dStopItem.stop.stop_id with
  | some pIndex, some dIndex =>
      if pIndex < dIndex then
        match amGet? st.routes routeId with
        | none => acc
        | some route =>
            match amGet? st.stopTimesByStopId pStopItem.stop.stop_id with
            | none => acc
            | some pStopTimes =>
                match pStopTimes.find? (validTripPred st routeId dStopItem.stop.stop_id) with
                | none => acc
                | some validTrip =>
                    match amGet? st.trips validTrip.trip_id,
                        amGet? st.stopTimesByTripId validTrip.trip_id with
                    | some trip, some tripStops =>
                        match tripStops.find? (fun ts =>
                            ts.stop_id == dStopItem.stop.stop_id) with
                        | some dSt =>
                            let routeName :=
                              jsOr route.route_short_name route.route_long_name
                            let uniqueKey := routeName ++ "-" ++
                              pStopItem.stop.stop_name ++ "-" ++ dStopItem.stop.stop_name
                            if acc.2.contains uniqueKey then acc
                            else
                              (acc.1 ++ [buildRouteResult st pickup drop pStopItem
                                dStopItem trip route validTrip dSt tripStops routeName],
                                acc.2 ++ [uniqueKey])
                        | none => acc
                    | _, _ => acc
      else acc
  | _, _ => acc

/-- The inner `for (const dStopItem of potentialDStops)` loop — it has no
break, so a full pass runs even once five results exist. -/
def fdrDLoop (st : BusServiceState) (pickup drop : GeoLocation) (routeId : String)
    (routeStops : List String) (pStopItem : NearbyStop) (dStops : List NearbyStop)
    (acc : List BusRouteResult × List String) :
    List BusRouteResult × List String :=
  dStops.foldl (fun a d => fdrBody st pickup drop routeId routeStops pStopItem d a) acc

/-- The `for (const pStopItem of potentialPStops)` loop with its
`if (results.length >= 5) break` (line 333). -/
def fdrPLoop (st : BusServiceState) (pickup drop : GeoLocation) (routeId : String)
    (routeStops : List String) (dStops : List NearbyStop) :
    List NearbyStop → List BusRouteResult × List String →
      List BusRouteResult × List String
  | [], acc => acc
  | p :: rest, acc =>
      let acc1 := fdrDLoop st pickup drop routeId routeStops p dStops acc
      if 5 ≤ acc1.1.length then acc1
      else fdrPLoop st pickup drop routeId routeStops dStops rest acc1

/-- The `for (const routeId of commonRouteIds)` loop with its
`if (results.length >= 5) break` (line 335). -/
def fdrRouteLoop (st : BusServiceState) (pickup drop : GeoLocation)
    (pRoutesMap dRoutesMap : List (String × List NearbyStop)) :
    List String → List BusRouteResult × List String →
      List BusRouteResult × List String
  | [], acc => acc
  | routeId :: rest, acc =>
      match amGet? st.stopsByRoute routeId with
      | none => fdrRouteLoop st pickup drop pRoutesMap dRoutesMap rest acc
      | some routeStops =>
          let potentialP := (amGet? pRoutesMap routeId).getD []
          let potentialD := (amGet? dRoutesMap routeId).getD []
          let acc1 := fdrPLoop st pickup drop routeId routeStops potentialD potentialP acc
          if 5 ≤ acc1.1.length then acc1
          else fdrRouteLoop st pickup drop pRoutesMap dRoutesMap rest acc1

/-- `findDirectRoutes` (lines 238–339). -/
def findDirectRoutes (st : BusServiceState) (pickup drop : GeoLocation)
    (pStops dStops : List NearbyStop) : List BusRouteResult :=
  let pRoutesMap := pStops.foldl (fun m p =>
    ((amGet? st.routesByStop p.stop.stop_id).getD []).foldl
      (fun m2 rId => amPush m2 rId p) m) []
  let dRoutesMap := dStops.foldl (fun m d =>
    ((amGet? st.routesByStop d.stop.stop_id).getD []).foldl
      (fun m2 rId => amPush m2 rId d) m) []
  let commonRouteIds := (pRoutesMap.map (fun e => e.1)).filter
    (fun rId => amHas dRoutesMap rId)
  (fdrRouteLoop st pickup drop pRoutesMap dRoutesMap commonRouteIds ([], [])).1

/-! ## Transfer search (`findTransferRoutes`, lines 341–481)

The loop is split into a candidate-collection phase and a result-build
phase.  This is extensionally faithful: in the source, building a result
from an accepted candidate is pure except for the non-null assertions
`this.routes.get(...)!` (line 454) whose failure throws and aborts the
entire query with nothing returned (no `catch` on the query path), so
interleaving builds with the scan is indistinguishable from collecting
the accepted candidates first (same 5-cap, same `seenRoutes` updates —
a key is added only after the time check passes) and then building. -/

structure TransferCandidate where
  pRouteId : String
  dRouteId : String
  pStopItem : NearbyStop
  dStopItem : NearbyStop
  transferStop : Stop
  leg1 : TripLegInfo
  leg2 : TripLegInfo
  deriving DecidableEq, Repr

/-- One (transfer stop, drop route) check (lines 407–472, minus the
result build): sequence-direction test on the drop route, dedup key
test, transfer-stop lookup, the two `findTripForLeg` calls and the
`if (dep2 < arr1) continue` time check. -/
def tcTry (st : BusServiceState) (seen : List String) (pRouteId : String)
    (pStopItem : NearbyStop) (transferStopId : String) (dRouteId : String)
    (dStopItem : NearbyStop) : Option TransferCandidate :=
  match amGet? st.stopsByRoute dRouteId with
  | none => none
  | some dRouteStops =>
      match jsIndexOf dRouteStops transferStopId,
          jsIndexOf dRouteStops dStopItem.stop.stop_id with
      | some transferIndexInLeg2, some dropIndexInLeg2 =>
          if transferIndexInLeg2 < dropIndexInLeg2 then
            let uniqueKey := pRouteId ++ "-" ++ transferStopId ++ "-" ++ dRouteId
            if seen.contains uniqueKey then none
            else
              match amGet? st.stops transferStopId with
              | none => none
              | some transferStop =>
                  match findTripForLeg st pRouteId pStopItem.stop.stop_id transferStopId with
                  | none => none
                  | some trip1Info =>
                      match findTripForLeg st dRouteId transferStopId
                          dStopItem.stop.stop_id with
                      | none => none
                      | some trip2Info =>
                          let arr1 := parseTime trip1Info.endSt.arrival_time
                          let dep2 := parseTime trip2Info.start.departure_time
                          if ltN dep2 arr1 then none
                          else some ⟨pRouteId, dRouteId, pStopItem, dStopItem,
                            transferStop, trip1Info, trip2Info⟩
          else none
      | _, _ => none

/-- The `for (const dRouteId of connectingDropRoutes)` loop with the
`if (results.length >= 5) return results` early exit (line 470). -/
def tcDLoop (st : BusServiceState) (dRoutesMap : List (String × NearbyStop))
    (pRouteId : String) (pStopItem : NearbyStop) (transferStopId : String) :
    List String → List TransferCandidate × List String →
      List TransferCandidate × List String
  | [], acc => acc
  | dRouteId :: rest, acc =>
      if 5 ≤ acc.1.length then acc
      else
        match amGet? dRoutesMap dRouteId with
        | none => tcDLoop st dRoutesMap pRouteId pStopItem transferStopId rest acc
        | some dStopItem =>
            match tcTry st acc.2 pRouteId pStopItem transferStopId dRouteId dStopItem with
            | some cand =>
                tcDLoop st dRoutesMap pRouteId pStopItem transferStopId rest
                  (acc.1 ++ [cand],
                    acc.2 ++ [pRouteId ++ "-" ++ transferStopId ++ "-" ++ dRouteId])
            | none => tcDLoop st dRoutesMap pRouteId pStopItem transferStopId rest acc

/-- The `for (let i = pStartIndex + 1; ...)` loop over potential transfer
stops (lines 402–476), running over the tail of the pickup route's stop
list after the pickup stop. -/
def tcTLoop (st : BusServiceState) (dRoutesMap : List (String × NearbyStop))
    (stopsToDropRoutes : List (String × List String)) (pRouteId : String)
    (pStopItem : NearbyStop) :
    List String → List TransferCandidate × List String →
      List TransferCandidate × List String
  | [], acc => acc
  | transferStopId :: rest, acc =>
      if 5 ≤ acc.1.length then acc
      else
        match amGet? stopsToDropRoutes transferStopId with
        | none => tcTLoop st dRoutesMap stopsToDropRoutes pRouteId pStopItem rest acc
        | some connectingDropRoutes =>
            let acc1 := tcDLoop st dRoutesMap pRouteId pStopItem transferStopId
              connectingDropRoutes acc
            tcTLoop st dRoutesMap stopsToDropRoutes pRouteId pStopItem rest acc1

/-- The outer `for (const pRouteId of pRouteIds)` loop with its
`if (results.length >= 5) break` (line 477). -/
def tcPLoop (st : BusServiceState) (pRoutesMap dRoutesMap : List (String × NearbyStop))
    (stopsToDropRoutes : List (String × List String)) :
    List String → List TransferCandidate × List String →
      List TransferCandidate × List String
  | [], acc => acc
  | pRouteId :: rest, acc =>
      if 5 ≤ acc.1.length then acc
      else
        match amGet? st.stopsByRoute pRouteId with
        | none => tcPLoop st pRoutesMap dRoutesMap stopsToDropRoutes rest acc
        | some pRouteStops =>
            match amGet? pRoutesMap pRouteId with
            | none => tcPLoop st pRoutesMap dRoutesMap stopsToDropRoutes rest acc
            | some pStopItem =>
                match jsIndexOf pRouteStops pStopItem.stop.stop_id with
                | none => tcPLoop st pRoutesMap dRoutesMap stopsToDropRoutes rest acc
                | some pStartIndex =>
                    let acc1 := tcTLoop st dRoutesMap stopsToDropRoutes pRouteId pStopItem
                      (pRouteStops.drop (pStartIndex + 1)) acc
                    tcPLoop st pRoutesMap dRoutesMap stopsToDropRoutes rest acc1

/-- The accepted transfer candidates, in acceptance order (lines 341–480
minus the result builds). -/
def transferCandidates (st : BusServiceState) (pStops dStops : List NearbyStop) :
    List TransferCandidate :=
  let pRoutesMap := (pStops.take 5).foldl (fun m p =>
    ((amGet? st.routesByStop p.stop.stop_id).getD []).foldl
      (fun m2 rId => if amHas m2 rId then m2 else m2 ++ [(rId, p)]) m) []
  let dRoutesMap := (dStops.take 5).foldl (fun m d =>
    ((amGet? st.routesByStop d.stop.stop_id).getD []).foldl
      (fun m2 rId => if amHas m2 rId then m2 else m2 ++ [(rId, d)]) m) []
  let dRouteIds := dRoutesMap.map (fun e => e.1)
  let stopsToDropRoutes := dRouteIds.foldl (fun m rId =>
    match amGet? st.stopsByRoute rId with
    | some stops => stops.foldl (fun m2 sId => amPush m2 sId rId) m
    | none => m) []
  let pRouteIds := pRoutesMap.map (fun e => e.1)
  (tcPLoop st pRoutesMap dRoutesMap stopsToDropRoutes pRouteIds ([], [])).1

/-- Building one accepted candidate's itinerary (lines 454–468).  The
non-null assertions `this.routes.get(pRouteId)!` / `get(dRouteId)!`
evaluate to `undefined` when the route id is absent from the routes
index, and the subsequent property access throws a `TypeError` that
propagates to the caller — modelled as `Except.error`. -/
def buildFromCandidate (st : BusServiceState) (pickup drop : GeoLocation)
    (c : TransferCandidate) : Except String BusRouteResult :=
  match amGet? st.routes c.pRouteId, amGet? st.routes c.dRouteId with
  | some route1, some route2 =>
      .ok (buildTransferRouteResult st pickup drop c.pStopItem c.dStopItem
        c.leg1.trip route1 c.leg2.trip route2 c.leg1.start c.leg1.endSt
        c.leg2.start c.leg2.endSt c.leg1.stops c.leg2.stops c.transferStop)
  | _, _ =>
      .error "TypeError: cannot read properties of undefined (reading route_short_name)"

/-- Exception-propagating map: the first `error` aborts with nothing
built (as a thrown `TypeError` aborts the query with no partial result). -/
def mapME {α β : Type} (f : α → Except String β) : List α → Except String (List β)
  | [] => .ok []
  | x :: xs =>
      match f x with
      | .error e => .error e
      | .ok y =>
          match mapME f xs with
          | .error e => .error e
          | .ok ys => .ok (y :: ys)

/-- `findTransferRoutes` (lines 341–481): the itineraries built from the
accepted candidates; the first failing non-null assertion aborts the
whole query. -/
def findTransferRoutes (st : BusServiceState) (pickup drop : GeoLocation)
    (pStops dStops : List NearbyStop) : Except String (List BusRouteResult) :=
  mapME (buildFromCandidate st pickup drop) (transferCandidates st pStops dStops)

/-! ## The facade (`findRoutes`, lines 196–236) -/

/-- The ranking comparator (lines 231–235): `parseInt` of the duration
strings, difference as comparator; a `NaN` comparator value is treated
as `0` ("equal") by `Array.prototype.sort`. -/
def durLE (a b : BusRouteResult) : Bool :=
  match parseIntJS a.duration, parseIntJS b.duration with
  | some x, some y => decide (x ≤ y)
  | _, _ => true

/-- `findRoutes(pickup, drop)`: guard on `isLoaded`, nearby-stop search
for both endpoints, direct search, transfer search only when fewer than
five direct results, then a stable sort by parsed duration and `slice(0, 5)`.
An exception thrown by the transfer search propagates (`Except.error`). -/
def findRoutes (st : BusServiceState) (dist : ℚ → ℚ → ℚ → ℚ → ℚ)
    (pickup drop : GeoLocation) : Except String (List BusRouteResult) :=
  if !st.isLoaded then .ok []
  else
    let nearbyPickupStops := findNearbyStopsWithDistance st dist pickup
    let nearbyDropStops := findNearbyStopsWithDistance st dist drop
    if nearbyPickupStops.isEmpty || nearbyDropStops.isEmpty then .ok []
    else
      let directRoutes := findDirectRoutes st pickup drop nearbyPickupStops nearbyDropStops
      match (if directRoutes.length < 5 then
          findTransferRoutes st pickup drop nearbyPickupStops nearbyDropStops
        else .ok []) with
      | .error e => .error e
      | .ok transferRoutes =>
          .ok ((jsSort durLE (directRoutes ++ transferRoutes)).take 5)

/-! ## Concrete fixtures

Small GTFS feeds, loaded through `loadData`, used to instantiate the
theorems below.  `distManhattan` is a concrete stand-in for the distance
function (any function of the four coordinates is admissible, see `distO`). -/

def distManhattan (lat1 lng1 lat2 lng2 : ℚ) : ℚ :=
  |lat1 - lat2| + |lng1 - lng2|

/-- Feed B: stops A(0,0), M(5,5), B(10,10); route RZ (short name "Z")
with trip TZ visiting A→M→B, route RA (short name "A") with trip TA
visiting A→B, both taking 10 minutes end to end. -/
def stB : BusServiceState :=
  loadData
    (some [⟨"A", "A Stop", "0", "0"⟩, ⟨"M", "M Stop", "5", "5"⟩,
      ⟨"B", "B Stop", "10", "10"⟩])
    (some [⟨"TZ", "08:00:00", "08:00:00", "A", "1"⟩,
      ⟨"TZ", "08:04:00", "08:06:00", "M", "2"⟩,
      ⟨"TZ", "08:10:00", "08:10:00", "B", "3"⟩,
      ⟨"TA", "08:00:00", "08:00:00", "A", "1"⟩,
      ⟨"TA", "08:10:00", "08:10:00", "B", "2"⟩])
    (some [⟨"RZ", "S", "TZ", "HZ"⟩, ⟨"RA", "S", "TA", "HA"⟩])
    (some [⟨"RZ", "Z", "Z Long", "3"⟩, ⟨"RA", "A", "A Long", "3"⟩])

def pickupB : GeoLocation := ⟨0, 0⟩

def dropB : GeoLocation := ⟨10, 10⟩

/-- Feed T: a trip whose single bus leg lasts 30 seconds. -/
def stT : BusServiceState :=
  loadData
    (some [⟨"A", "A Stop", "0", "0"⟩, ⟨"B", "B Stop", "10", "10"⟩])
    (some [⟨"T1", "08:00:00", "08:00:00", "A", "1"⟩,
      ⟨"T1", "08:00:30", "08:00:30", "B", "2"⟩])
    (some [⟨"R1", "S", "T1", "H1"⟩])
    (some [⟨"R1", "R", "R Long", "3"⟩])

/-- Feed C: trips reference route R1 but the routes file has no rows, so
the routes index is empty while everything else loads. -/
def stC : BusServiceState :=
  loadData
    (some [⟨"A", "A Stop", "0", "0"⟩, ⟨"M", "M Stop", "5", "5"⟩,
      ⟨"B", "B Stop", "10", "10"⟩])
    (some [⟨"T1", "08:00:00", "08:00:00", "A", "1"⟩,
      ⟨"T1", "08:05:00", "08:05:30", "M", "2"⟩,
      ⟨"T1", "08:10:00", "08:10:00", "B", "3"⟩])
    (some [⟨"R1", "S", "T1", "H1"⟩])
    (some [])

/-- Feed E: the stop_times of trip T1 reference stop M, but the stops
file has no row for M (a dangling reference, which `loadData` keeps). -/
def stE : BusServiceState :=
  loadData
    (some [⟨"A", "A Stop", "0", "0"⟩, ⟨"B", "B Stop", "10", "10"⟩])
    (some [⟨"T1", "08:00:00", "08:00:00", "A", "1"⟩,
      ⟨"T1", "08:05:00", "08:05:30", "M", "2"⟩,
      ⟨"T1", "08:10:00", "08:10:00", "B", "3"⟩])
    (some [⟨"R1", "S", "T1", "H1"⟩])
    (some [⟨"R1", "R", "R Long", "3"⟩])

/-- The three mandatory files of feed D (a working one-leg feed). -/
def stopsRowsD : List RawStop :=
  [⟨"A", "A Stop", "0", "0"⟩, ⟨"B", "B Stop", "10", "10"⟩]

def stopTimesRowsD : List RawStopTime :=
  [⟨"T1", "08:00:00", "08:00:00", "A", "1"⟩,
    ⟨"T1", "08:10:00", "08:10:00", "B", "2"⟩]

def tripsRowsD : List RawTrip := [⟨"R1", "S", "T1", "H1"⟩]

/-- Feed D with the routes file ABSENT. -/
def stD : BusServiceState :=
  loadData (some stopsRowsD) (some stopTimesRowsD) (some tripsRowsD) none

/-- Feed D with the routes file present. -/
def stDFull : BusServiceState :=
  loadData (some stopsRowsD) (some stopTimesRowsD) (some tripsRowsD)
    (some [⟨"R1", "R name", "R Long", "3"⟩])

/-- Feed N: two stops at identical coordinates, the one with the
lexicographically larger id first in the stops file. -/
def stN : BusServiceState :=
  loadData
    (some [⟨"b", "B Stop", "1", "1"⟩, ⟨"a", "A Stop", "1", "1"⟩])
    (some []) (some []) (some [])

/-- Feed F7: the second stops row has an empty (missing) `stop_lat`. -/
def stF7 : BusServiceState :=
  loadData
    (some [⟨"A", "A Stop", "28.5", "77"⟩, ⟨"B", "B Stop", "", "77"⟩])
    (some []) (some []) (some [])

/-! Values of feed B used to instantiate theorems. -/

def stopA : Stop := ⟨"A", "A Stop", some 0, some 0⟩

def stopM : Stop := ⟨"M", "M Stop", some 5, some 5⟩

def stopBStop : Stop := ⟨"B", "B Stop", some 10, some 10⟩

def psB : List NearbyStop := [⟨stopA, 0⟩]

def dsB : List NearbyStop := [⟨stopBStop, 0⟩]

def tzA : StopTime := ⟨"TZ", "08:00:00", "08:00:00", "A", some 1⟩

def tzM : StopTime := ⟨"TZ", "08:04:00", "08:06:00", "M", some 2⟩

def tzB : StopTime := ⟨"TZ", "08:10:00", "08:10:00", "B", some 3⟩

def tzStops : List StopTime := [tzA, tzM, tzB]

def tripTZ : Trip := ⟨"RZ", "S", "TZ", "HZ"⟩

/-- The single transfer candidate of feed B for `psB`/`dsB`: route RZ to
itself via the middle stop M. -/
def candB : TransferCandidate :=
  ⟨"RZ", "RZ", ⟨stopA, 0⟩, ⟨stopBStop, 0⟩, stopM,
    ⟨tripTZ, tzA, tzM, tzStops⟩, ⟨tripTZ, tzM, tzB, tzStops⟩⟩

/-- The itineraries `findRoutes` returns on feed B. -/
def resultsB : List BusRouteResult :=
  match findRoutes stB distManhattan pickupB dropB with
  | .ok l => l
  | .error _ => []

/-- The itineraries `findTransferRoutes` returns on feed B. -/
def transferOutB : List BusRouteResult :=
  match findTransferRoutes stB pickupB dropB psB dsB with
  | .ok l => l
  | .error _ => []

def pickupT : GeoLocation := ⟨1 / 2, 0⟩

def dropT : GeoLocation := ⟨10, 21 / 2⟩

/-! ## Derived quantities used in theorem statements -/

/-- The fare contribution of one segment: `5 + 1.5 ×` (number of stops)
for a bus segment, `0` for a walk segment. -/
def segFare (s : RouteSegment) : ℚ :=
  match s.type with
  | SegType.bus => 5 + (((s.stops.getD []).length : ℚ)) * (3 / 2)
  | SegType.walk => 0

/-- The per-leg fare formula summed over an itinerary's segments. -/
def busFareSum (segs : List RouteSegment) : ℚ :=
  (segs.map segFare).sum

/-- A transfer candidate that was produced by some `tcTry` check — the
provenance every accepted candidate of `transferCandidates` has. -/
def FromTry (st : BusServiceState) (c : TransferCandidate) : Prop :=
  ∃ seen pR pS tId dR dS, tcTry st seen pR pS tId dR dS = some c

/-- An itinerary produced by the direct-route builder — the provenance
every result of `findDirectRoutes` has. -/
def FromDirectBuild (st : BusServiceState) (pickup drop : GeoLocation)
    (r : BusRouteResult) : Prop :=
  ∃ pS dS trip route pSt dSt tss rn,
    r = buildRouteResult st pickup drop pS dS trip route pSt dSt tss rn

/-- An itinerary produced by the transfer builder. -/
def FromTransferBuild (st : BusServiceState) (pickup drop : GeoLocation)
    (r : BusRouteResult) : Prop :=
  ∃ pS dS t1 r1 t2 r2 pSt tSt1 tSt2 dSt ts1 ts2 tStop,
    r = buildTransferRouteResult st pickup drop pS dS t1 r1 t2 r2 pSt tSt1 tSt2
      dSt ts1 ts2 tStop

def routeRZ : Route := ⟨"RZ", "Z", "Z Long", "3"⟩

/-- The transfer itinerary of feed B, as built from `candB`. -/
def rTB : BusRouteResult :=
  buildTransferRouteResult stB pickupB dropB ⟨stopA, 0⟩ ⟨stopBStop, 0⟩ tripTZ
    routeRZ tripTZ routeRZ tzA tzM tzM tzB tzStops tzStops stopM

/-! ## Lemmas about the stable sort `jsSort` -/

theorem jsInsert_eq_append {α : Type} (le : α → α → Bool) (x : α) (l : List α) :
    ∃ l₁ l₂, l = l₁ ++ l₂ ∧ jsInsert le x l = l₁ ++ x :: l₂ ∧
      ∀ y ∈ l₁, le x y = false := by
  induction l with
  | nil => exact ⟨[], [], rfl, rfl, by simp⟩
  | cons y ys ih =>
      by_cases h : le x y = true
      · exact ⟨[], y :: ys, rfl, by simp [jsInsert, h], by simp⟩
      · obtain ⟨l₁, l₂, he, hi, hf⟩ := ih
        refine ⟨y :: l₁, l₂, by simp [he], by simp [jsInsert, h, hi], ?_⟩
        intro z hz
        rcases List.mem_cons.mp hz with rfl | hz
        · exact Bool.not_eq_true _ ▸ h
        · exact hf z hz

theorem jsInsert_perm {α : Type} (le : α → α → Bool) (x : α) (l : List α) :
    (jsInsert le x l).Perm (x :: l) := by
  obtain ⟨l₁, l₂, he, hi, -⟩ := jsInsert_eq_append le x l
  rw [hi, he]
  exact List.perm_middle

theorem jsSort_perm {α : Type} (le : α → α → Bool) (l : List α) :
    (jsSort le l).Perm l := by
  induction l with
  | nil => exact List.Perm.refl _
  | cons x xs ih =>
      exact ((jsInsert_perm le x (jsSort le xs)).trans (ih.cons x))

theorem mem_jsSort {α : Type} {le : α → α → Bool} {l : List α} {a : α} :
    a ∈ jsSort le l ↔ a ∈ l :=
  (jsSort_perm le l).mem_iff

theorem jsInsert_head? {α : Type} (le : α → α → Bool) (x : α) (l : List α) :
    (jsInsert le x l).head? = some x ∨ (jsInsert le x l).head? = l.head? := by
  cases l with
  | nil => exact Or.inl rfl
  | cons y ys =>
      by_cases h : le x y = true
      · exact Or.inl (by simp [jsInsert, h])
      · exact Or.inr (by simp [jsInsert, h])

theorem jsInsert_chain {α : Type} (le : α → α → Bool)
    (total : ∀ a b, le a b = true ∨ le b a = true) (x : α) (l : List α)
    (h : l.Chain' (fun a b => le a b = true)) :
    (jsInsert le x l).Chain' (fun a b => le a b = true) := by
  induction l with
  | nil => simp [jsInsert]
  | cons y ys ih =>
      by_cases hxy : le x y = true
      · simp only [jsInsert, hxy, if_true]
        exact List.chain'_cons.mpr ⟨hxy, h⟩
      · have htail : (jsInsert le x ys).Chain' (fun a b => le a b = true) :=
          ih h.tail
        have hyx : le y x = true := (total x y).resolve_left hxy
        simp only [jsInsert, hxy, if_false]
        refine List.chain'_cons'.mpr ⟨?_, htail⟩
        intro z hz
        rcases jsInsert_head? le x ys with hh | hh
        · rw [hh] at hz
          cases hz
          exact hyx
        · rw [hh] at hz
          cases ys with
          | nil => cases hz
          | cons w ws =>
              cases hz
              exact h.rel_head

theorem jsSort_chain {α : Type} (le : α → α → Bool)
    (total : ∀ a b, le a b = true ∨ le b a = true) (l : List α) :
    (jsSort le l).Chain' (fun a b => le a b = true) := by
  induction l with
  | nil => simp [jsSort]
  | cons x xs ih => exact jsInsert_chain le total x (jsSort le xs) ih

theorem jsInsert_pairwise {α : Type} (le : α → α → Bool) (x : α) (l : List α)
    (hl : l.Pairwise (fun a b => le a b = true))
    (totalx : ∀ b ∈ l, le x b = true ∨ le b x = true)
    (transx : ∀ b ∈ l, ∀ c ∈ l, le x b = true → le b c = true → le x c = true) :
    (jsInsert le x l).Pairwise (fun a b => le a b = true) := by
  induction l with
  | nil => simp [jsInsert]
  | cons y ys ih =>
      by_cases hxy : le x y = true
      · simp only [jsInsert, hxy, if_true]
        refine List.pairwise_cons.mpr ⟨?_, hl⟩
        intro z hz
        rcases List.mem_cons.mp hz with rfl | hz
        · exact hxy
        · exact transx y (by simp) z (by simp [hz]) hxy
            ((List.pairwise_cons.mp hl).1 z hz)
      · have hyx : le y x = true := by
          rcases totalx y (by simp) with h | h
          · exact absurd h hxy
          · exact h
        simp only [jsInsert, hxy, if_false]
        refine List.pairwise_cons.mpr ⟨?_, ?_⟩
        · intro z hz
          rcases List.mem_cons.mp ((jsInsert_perm le x ys).mem_iff.mp hz) with rfl | hz2
          · exact hyx
          · exact (List.pairwise_cons.mp hl).1 z hz2
        · exact ih (List.pairwise_cons.mp hl).2
            (fun b hb => totalx b (by simp [hb]))
            (fun b hb c hc => transx b (by simp [hb]) c (by simp [hc]))

theorem jsSort_pairwise {α : Type} (le : α → α → Bool) (l : List α)
    (total : ∀ a ∈ l, ∀ b ∈ l, le a b = true ∨ le b a = true)
    (trans : ∀ a ∈ l, ∀ b ∈ l, ∀ c ∈ l,
      le a b = true → le b c = true → le a c = true) :
    (jsSort le l).Pairwise (fun a b => le a b = true) := by
  induction l with
  | nil => simp [jsSort]
  | cons x xs ih =>
      have hxs : (jsSort le xs).Pairwise (fun a b => le a b = true) :=
        ih (fun a ha b hb => total a (by simp [ha]) b (by simp [hb]))
          (fun a ha b hb c hc =>
            trans a (by simp [ha]) b (by simp [hb]) c (by simp [hc]))
      exact jsInsert_pairwise le x (jsSort le xs) hxs
        (fun b hb => total x (by simp) b (by simp [mem_jsSort.mp hb]))
        (fun b hb c hc => trans x (by simp) b (by simp [mem_jsSort.mp hb])
          c (by simp [mem_jsSort.mp hc]))

theorem jsInsert_filter_pos {α : Type} (le : α → α → Bool) (p : α → Bool)
    (x : α) (l : List α) (hx : p x = true)
    (hstop : ∀ z ∈ l, p z = true → le x z = true) :
    (jsInsert le x l).filter p = x :: l.filter p := by
  induction l with
  | nil => simp [jsInsert, hx]
  | cons y ys ih =>
      by_cases hxy : le x y = true
      · simp [jsInsert, hxy, List.filter_cons, hx]
      · have hpy : p y = false := by
          cases hpy : p y
          · rfl
          · exact absurd (hstop y (by simp) hpy) hxy
        have := ih (fun z hz hpz => hstop z (by simp [hz]) hpz)
        simp [jsInsert, hxy, List.filter_cons, hpy, this]

theorem jsInsert_filter_neg {α : Type} (le : α → α → Bool) (p : α → Bool)
    (x : α) (l : List α) (hx : p x = false) :
    (jsInsert le x l).filter p = l.filter p := by
  obtain ⟨l₁, l₂, he, hi, -⟩ := jsInsert_eq_append le x l
  rw [hi, he]
  simp [List.filter_append, List.filter_cons, hx]

/-- Stability of `jsSort`: a class of pairwise-tied elements keeps its
original relative order through the sort. -/
theorem jsSort_filter {α : Type} (le : α → α → Bool) (p : α → Bool) (l : List α)
    (htie : ∀ a ∈ l, ∀ b ∈ l, p a = true → p b = true → le a b = true) :
    (jsSort le l).filter p = l.filter p := by
  induction l with
  | nil => simp [jsSort]
  | cons x xs ih =>
      have ihx := ih (fun a ha b hb => htie a (by simp [ha]) b (by simp [hb]))
      cases hx : p x
      · rw [show jsSort le (x :: xs) = jsInsert le x (jsSort le xs) from rfl,
          jsInsert_filter_neg le p x _ hx, ihx, List.filter_cons]
        simp [hx]
      · rw [show jsSort le (x :: xs) = jsInsert le x (jsSort le xs) from rfl,
          jsInsert_filter_pos le p x _ hx
            (fun z hz hpz => htie x (by simp) z (by simp [mem_jsSort.mp hz]) hx hpz),
          ihx, List.filter_cons]
        simp [hx]

/-! ## Provenance of transfer candidates -/

theorem ftflScan_some {st : BusServiceState} {routeId endStopId : String}
    {l : List StopTime} {info : TripLegInfo}
    (h : ftflScan st routeId endStopId l = some info) :
    info.endSt ∈ info.stops ∧ info.endSt.stop_id = endStopId ∧
      gtB info.endSt.stop_sequence info.start.stop_sequence = true ∧
      amGet? st.stopTimesByTripId info.start.trip_id = some info.stops := by
  induction l with
  | nil => cases h
  | cons sTime rest ih =>
      rw [ftflScan] at h
      cases h0 : amGet? st.trips sTime.trip_id with
      | none =>
          simp only [h0] at h
          exact ih h
      | some trip =>
          simp only [h0] at h
          by_cases h1 : (trip.route_id == routeId) = true
          · rw [if_pos h1] at h
            cases h2 : amGet? st.stopTimesByTripId sTime.trip_id with
            | none =>
                simp only [h2] at h
                exact ih h
            | some tripStops =>
                simp only [h2] at h
                cases h3 : tripStops.find? (fun s2 =>
                    s2.stop_id == endStopId &&
                      gtB s2.stop_sequence sTime.stop_sequence) with
                | none =>
                    simp only [h3] at h
                    exact ih h
                | some endSt =>
                    simp only [h3] at h
                    cases h
                    have hmem := List.mem_of_find?_eq_some h3
                    have hpred := List.find?_some h3
                    rw [Bool.and_eq_true] at hpred
                    exact ⟨hmem, beq_iff_eq.mp hpred.1, hpred.2, h2⟩
          · rw [if_neg h1] at h
            exact ih h

theorem findTripForLeg_some {st : BusServiceState} {routeId startStopId endStopId : String}
    {info : TripLegInfo}
    (h : findTripForLeg st routeId startStopId endStopId = some info) :
    info.endSt ∈ info.stops ∧ info.endSt.stop_id = endStopId ∧
      gtB info.endSt.stop_sequence info.start.stop_sequence = true ∧
      amGet? st.stopTimesByTripId info.start.trip_id = some info.stops := by
  rw [findTripForLeg] at h
  split at h
  · cases h
  · exact ftflScan_some h

theorem tcTry_some {st : BusServiceState} {seen : List String}
    {pRouteId transferStopId dRouteId : String} {pStopItem dStopItem : NearbyStop}
    {c : TransferCandidate}
    (h : tcTry st seen pRouteId pStopItem transferStopId dRouteId dStopItem = some c) :
    c.pRouteId = pRouteId ∧ c.dRouteId = dRouteId ∧ c.pStopItem = pStopItem ∧
      c.dStopItem = dStopItem ∧
      amGet? st.stops transferStopId = some c.transferStop ∧
      findTripForLeg st pRouteId pStopItem.stop.stop_id transferStopId = some c.leg1 ∧
      findTripForLeg st dRouteId transferStopId dStopItem.stop.stop_id = some c.leg2 ∧
      ltN (parseTime c.leg2.start.departure_time)
        (parseTime c.leg1.endSt.arrival_time) = false := by
  rw [tcTry] at h
  cases h0 : amGet? st.stopsByRoute dRouteId with
  | none =>
          simp only [h0] at h
          cases h
  | some dRouteStops =>
      simp only [h0] at h
      cases h1 : jsIndexOf dRouteStops transferStopId with
      | none =>
          simp only [h1] at h
          cases h
      | some ti =>
          simp only [h1] at h
          cases h2 : jsIndexOf dRouteStops dStopItem.stop.stop_id with
          | none =>
          simp only [h2] at h
          cases h
          | some di =>
              simp only [h2] at h
              by_cases h3 : ti < di
              · rw [if_pos h3] at h
                by_cases h4 : (seen.contains
                    (pRouteId ++ "-" ++ transferStopId ++ "-" ++ dRouteId)) = true
                · rw [if_pos h4] at h
                  cases h
                · rw [if_neg h4] at h
                  cases h5 : amGet? st.stops transferStopId with
                  | none =>
          simp only [h5] at h
          cases h
                  | some transferStop =>
                      simp only [h5] at h
                      cases h6 : findTripForLeg st pRouteId
                          pStopItem.stop.stop_id transferStopId with
                      | none =>
          simp only [h6] at h
          cases h
                      | some trip1Info =>
                          simp only [h6] at h
                          cases h7 : findTripForLeg st dRouteId transferStopId
                              dStopItem.stop.stop_id with
                          | none =>
          simp only [h7] at h
          cases h
                          | some trip2Info =>
                              simp only [h7] at h
                              by_cases h8 : ltN (parseTime trip2Info.start.departure_time)
                                  (parseTime trip1Info.endSt.arrival_time) = true
                              · rw [if_pos h8] at h
                                cases h
                              · rw [if_neg h8] at h
                                cases h
                                exact ⟨rfl, rfl, rfl, rfl, rfl, rfl, rfl,
                                  Bool.not_eq_true _ ▸ h8⟩
              · rw [if_neg h3] at h
                cases h

theorem tcDLoop_mem {st : BusServiceState} {dRoutesMap : List (String × NearbyStop)}
    {pRouteId transferStopId : String} {pStopItem : NearbyStop}
    (l : List String) (acc : List TransferCandidate × List String)
    {c : TransferCandidate}
    (h : c ∈ (tcDLoop st dRoutesMap pRouteId pStopItem transferStopId l acc).1) :
    c ∈ acc.1 ∨ FromTry st c := by
  induction l generalizing acc with
  | nil => exact Or.inl h
  | cons dRouteId rest ih =>
      rw [tcDLoop] at h
      split at h
      · exact Or.inl h
      · split at h
        · exact ih _ h
        · split at h
          · rename_i dStopItem hget cand htry
            rcases ih _ h with h2 | h2
            · rcases List.mem_append.mp h2 with h3 | h3
              · exact Or.inl h3
              · rcases List.mem_singleton.mp h3 with rfl
                exact Or.inr ⟨_, _, _, _, _, _, htry⟩
            · exact Or.inr h2
          · exact ih _ h

theorem tcTLoop_mem {st : BusServiceState} {dRoutesMap : List (String × NearbyStop)}
    {stopsToDropRoutes : List (String × List String)} {pRouteId : String}
    {pStopItem : NearbyStop} (l : List String)
    (acc : List TransferCandidate × List String) {c : TransferCandidate}
    (h : c ∈ (tcTLoop st dRoutesMap stopsToDropRoutes pRouteId pStopItem l acc).1) :
    c ∈ acc.1 ∨ FromTry st c := by
  induction l generalizing acc with
  | nil => exact Or.inl h
  | cons transferStopId rest ih =>
      rw [tcTLoop] at h
      split at h
      · exact Or.inl h
      · split at h
        · exact ih _ h
        · rcases ih _ h with h2 | h2
          · exact tcDLoop_mem _ _ h2
          · exact Or.inr h2

theorem tcPLoop_mem {st : BusServiceState}
    {pRoutesMap dRoutesMap : List (String × NearbyStop)}
    {stopsToDropRoutes : List (String × List String)} (l : List String)
    (acc : List TransferCandidate × List String) {c : TransferCandidate}
    (h : c ∈ (tcPLoop st pRoutesMap dRoutesMap stopsToDropRoutes l acc).1) :
    c ∈ acc.1 ∨ FromTry st c := by
  induction l generalizing acc with
  | nil => exact Or.inl h
  | cons pRouteId rest ih =>
      rw [tcPLoop] at h
      split at h
      · exact Or.inl h
      · split at h
        · exact ih _ h
        · split at h
          · exact ih _ h
          · split at h
            · exact ih _ h
            · rcases ih _ h with h2 | h2
              · exact tcTLoop_mem _ _ h2
              · exact Or.inr h2

theorem transferCandidates_mem {st : BusServiceState} {pStops dStops : List NearbyStop}
    {c : TransferCandidate} (h : c ∈ transferCandidates st pStops dStops) :
    FromTry st c := by
  rw [transferCandidates] at h
  rcases tcPLoop_mem _ _ h with h2 | h2
  · cases h2
  · exact h2

theorem mapME_ok_mem {α β : Type} {f : α → Except String β} {l : List α}
    {out : List β} (h : mapME f l = Except.ok out) {r : β} (hr : r ∈ out) :
    ∃ x ∈ l, f x = Except.ok r := by
  induction l generalizing out with
  | nil =>
      rw [mapME] at h
      cases h
      cases hr
  | cons x xs ih =>
      rw [mapME] at h
      cases hfx : f x with
      | error e =>
          simp only [hfx] at h
          cases h
      | ok y =>
          simp only [hfx] at h
          cases hrest : mapME f xs with
          | error e =>
              simp only [hrest] at h
              cases h
          | ok ys =>
              simp only [hrest] at h
              cases h
              rcases List.mem_cons.mp hr with rfl | hr2
              · exact ⟨x, by simp, hfx⟩
              · rcases ih hrest hr2 with ⟨x2, hx2, hfx2⟩
                exact ⟨x2, by simp [hx2], hfx2⟩

/-! ## Claim C1 — transfer timing feasibility -/

/-- C1: every transfer itinerary returned by `findTransferRoutes` (the
transfer part of `find_routes`) is built from an accepted candidate on
which the `if (dep2 < arr1) continue` check passed, so whenever the two
times parse, the departure of leg 2's start stop-time is `≥` the arrival
of leg 1's end stop-time in parsed seconds; a candidate with
`dep2 < arr1` is skipped and yields no itinerary. -/
theorem c1_transfer_time_feasible (st : BusServiceState)
    (pickup drop : GeoLocation) (pStops dStops : List NearbyStop)
    (out : List BusRouteResult) (r : BusRouteResult)
    (hout : findTransferRoutes st pickup drop pStops dStops = Except.ok out)
    (hr : r ∈ out) :
    ∃ c ∈ transferCandidates st pStops dStops,
      buildFromCandidate st pickup drop c = Except.ok r ∧
      ltN (parseTime c.leg2.start.departure_time)
        (parseTime c.leg1.endSt.arrival_time) = false ∧
      ∀ a d : ℚ, parseTime c.leg1.endSt.arrival_time = some a →
        parseTime c.leg2.start.departure_time = some d → a ≤ d := by
  rw [findTransferRoutes] at hout
  rcases mapME_ok_mem hout hr with ⟨c, hc, hbuild⟩
  rcases transferCandidates_mem hc with ⟨seen, pR, pS, tId, dR, dS, htry⟩
  rcases tcTry_some htry with ⟨-, -, -, -, -, -, -, hguard⟩
  refine ⟨c, hc, hbuild, hguard, ?_⟩
  intro a d ha hd
  rw [hd, ha] at hguard
  simp only [ltN, decide_eq_false_iff_not] at hguard
  exact le_of_not_lt hguard

/-- Witness for C1 on feed B: the self-transfer candidate via stop M is
accepted, its itinerary is returned, and `29040 ≤ 29160` (08:04:00 vs
08:06:00 in seconds). -/
theorem c1_transfer_time_feasible_witness :
    ∃ c ∈ transferCandidates stB psB dsB,
      buildFromCandidate stB pickupB dropB c = Except.ok rTB ∧
      ltN (parseTime c.leg2.start.departure_time)
        (parseTime c.leg1.endSt.arrival_time) = false ∧
      ∀ a d : ℚ, parseTime c.leg1.endSt.arrival_time = some a →
        parseTime c.leg2.start.departure_time = some d → a ≤ d :=
  c1_transfer_time_feasible stB pickupB dropB psB dsB transferOutB rTB
    (by with_unfolding_all decide) (by with_unfolding_all decide)

/-! ## Claim C8 — determinism of `findRoutes` -/

/-- C8: on a fixed engine state (and distance function), two `findRoutes`
calls with equal pickup and drop coordinates return identical output —
the query path is a pure function of the state and inputs (JS map/set
iteration is insertion-ordered and the sort comparator is deterministic). -/
theorem c8_findRoutes_deterministic (st : BusServiceState)
    (dist : ℚ → ℚ → ℚ → ℚ → ℚ) (p1 d1 p2 d2 : GeoLocation)
    (hp : p1 = p2) (hd : d1 = d2) :
    findRoutes st dist p1 d1 = findRoutes st dist p2 d2 := by
  rw [hp, hd]

/-- Witness for C8 at feed B. -/
theorem c8_findRoutes_deterministic_witness :
    findRoutes stB distManhattan pickupB dropB =
      findRoutes stB distManhattan pickupB dropB :=
  c8_findRoutes_deterministic stB distManhattan pickupB dropB pickupB dropB
    rfl rfl

/-! ## Claim C3 — the query path can raise -/

/-- C3 (refuting the never-raises claim): on feed C — loaded, with trips
referencing route R1 that is absent from the routes file — the transfer
search reaches `this.routes.get(pRouteId)!` with an absent key and the
property access on `undefined` throws a `TypeError` that propagates out
of `findRoutes` instead of degrading to an empty result. -/
theorem c3_findRoutes_throws :
    stC.isLoaded = true ∧
      findRoutes stC distManhattan pickupB dropB =
        Except.error
          "TypeError: cannot read properties of undefined (reading route_short_name)" := by
  constructor
  · rfl
  · with_unfolding_all decide

/-! ## Claim C4 — missing routes file -/

/-- C4 (refuting the degraded-load claim): with the three mandatory files
present and parsed but the routes file absent, `loadData` reads the
routes file unconditionally, the thrown error is swallowed and
`isLoaded` stays `false`, so the engine does NOT load and every query
returns the empty list; `route_name` is never degraded to `route_id`. -/
theorem c4_missing_routes_cex :
    stD.isLoaded = false ∧
      findRoutes stD distManhattan pickupB dropB = Except.ok [] ∧
      (findRoutes stDFull distManhattan pickupB dropB).toOption.map
          (fun l => l.map (fun r => r.route_name)) = some ["R name"] := by
  refine ⟨rfl, by with_unfolding_all decide, by with_unfolding_all decide⟩

/-- C4 amended: whenever the routes file is absent, whatever the three
mandatory files contain, the engine stays unloaded and all queries
return the empty list. -/
theorem c4_missing_routes_disables (s : List RawStop) (t : List RawStopTime)
    (tr : List RawTrip) :
    (loadData (some s) (some t) (some tr) none).isLoaded = false ∧
      ∀ (dist : ℚ → ℚ → ℚ → ℚ → ℚ) (pickup drop : GeoLocation),
        findRoutes (loadData (some s) (some t) (some tr) none) dist pickup drop =
          Except.ok [] := by
  exact ⟨rfl, fun dist pickup drop => rfl⟩

/-! ## Claim C7 — no per-row validation at load -/

theorem amGet?_amSet {α : Type} (m : List (String × α)) (k : String) (v : α)
    (k2 : String) :
    amGet? (amSet m k v) k2 = if k2 = k then some v else amGet? m k2 := by
  induction m with
  | nil =>
      by_cases h : k2 = k
      · subst h
        simp [amSet, amGet?, List.find?]
      · have hkk : (k == k2) = false := beq_eq_false_iff_ne.mpr (fun hh => h hh.symm)
        simp [amSet, amGet?, List.find?, hkk, h]
  | cons e m ih =>
      by_cases he : e.1 = k
      · have he2 : (e.1 == k) = true := beq_iff_eq.mpr he
        simp only [amSet, he2, if_true]
        by_cases h : k2 = k
        · subst h
          simp [amGet?, List.find?]
        · have hkk : (k == k2) = false := beq_eq_false_iff_ne.mpr (fun hh => h hh.symm)
          have hek : (e.1 == k2) = false :=
            beq_eq_false_iff_ne.mpr (fun hh => h (hh ▸ he))
          simp [amGet?, List.find?, hkk, hek, h]
      · have he2 : (e.1 == k) = false := beq_eq_false_iff_ne.mpr he
        simp only [amSet, he2, Bool.false_eq_true, if_false]
        by_cases h2 : e.1 = k2
        · have h2b : (e.1 == k2) = true := beq_iff_eq.mpr h2
          have hk2k : ¬k2 = k := fun hh => he (h2.trans hh)
          simp [amGet?, List.find?, h2b, hk2k]
        · have h2b : (e.1 == k2) = false := beq_eq_false_iff_ne.mpr h2
          simpa [amGet?, List.find?, h2b] using ih

theorem foldl_amSet_mem {β : Type} (f : β → String) (g : β → Stop)
    (l : List β) (m : List (String × Stop)) (row : β)
    (h : row ∈ l ∨ (amGet? m (f row)).isSome = true) :
    (amGet? (l.foldl (fun acc x => amSet acc (f x) (g x)) m) (f row)).isSome = true := by
  induction l generalizing m with
  | nil =>
      rcases h with h | h
      · cases h
      · exact h
  | cons x xs ih =>
      rw [List.foldl_cons]
      apply ih
      rcases h with h | h
      · rcases List.mem_cons.mp h with rfl | h2
        · right
          rw [amGet?_amSet]
          simp
        · exact Or.inl h2
      · right
        rw [amGet?_amSet]
        by_cases he : f row = f x
        · simp [he]
        · simp [he, h]

/-- C7 (amended): `loadData` performs no per-row validation — the load
succeeds (`isLoaded = true`) whenever the three mandatory files are
present and parse, even with zero records, and every stops row is stored
under its `stop_id` (rows missing required values are stored with `NaN`
fields, never dropped, and nothing counts dropped rows). -/
theorem c7_load_stores_all_rows (s : List RawStop) (t : List RawStopTime)
    (tr : List RawTrip) (r : List RawRoute) :
    (loadData (some s) (some t) (some tr) (some r)).isLoaded = true ∧
      ∀ row ∈ s,
        (amGet? (loadData (some s) (some t) (some tr) (some r)).stops
          row.stop_id).isSome = true := by
  refine ⟨rfl, ?_⟩
  intro row hrow
  exact foldl_amSet_mem (fun x => x.stop_id)
    (fun x => ⟨x.stop_id, x.stop_name, parseFloatJS x.stop_lat, parseFloatJS x.stop_lon⟩)
    s [] row (Or.inl hrow)

/-- Witness for C7: the feed-F7 row with the missing `stop_lat` is
stored (its key resolves in the stops index). -/
theorem c7_load_stores_all_rows_witness :
    (amGet? stF7.stops "B").isSome = true :=
  (c7_load_stores_all_rows
    [⟨"A", "A Stop", "28.5", "77"⟩, ⟨"B", "B Stop", "", "77"⟩] [] [] []).2
    ⟨"B", "B Stop", "", "77"⟩ (by with_unfolding_all decide)

/-- C7 (counterexample to the claim as stated): the stops row with the
missing required `stop_lat` is stored (with `NaN` latitude) rather than
dropped and counted, and the load succeeds. -/
theorem c7_row_not_dropped_cex :
    amGet? stF7.stops "B" = some ⟨"B", "B Stop", none, some 77⟩ ∧
      stF7.isLoaded = true ∧ stF7.stops.length = 2 := by
  with_unfolding_all decide

/-! ## Claim C5 — nearby-stop search -/

/-- C5 (counterexample to the stop_id tie-break): two stops at identical
coordinates, loaded in the order b, a; the search returns them in
insertion order b, a although `"a" < "b"` lexicographically. -/
theorem c5_tie_not_by_stop_id_cex :
    findNearbyStopsWithDistance stN distManhattan ⟨0, 0⟩ 20 2 =
      [⟨⟨"b", "B Stop", some 1, some 1⟩, 2⟩, ⟨⟨"a", "A Stop", some 1, some 1⟩, 2⟩] ∧
      ("a" : String) < "b" := by
  with_unfolding_all decide

/-- C5 (amended): the nearby-stop finder returns the `limit` closest
stops within `max_km` (inclusive), ordered by ascending distance, each
paired with its distance; stops at equal distance keep the stops-map
insertion order (not stop_id order). -/
theorem c5_nearby_spec (st : BusServiceState) (dist : ℚ → ℚ → ℚ → ℚ → ℚ)
    (location : GeoLocation) (limit : ℕ) (maxKm : ℚ) :
    (findNearbyStopsWithDistance st dist location limit maxKm).length =
        min limit (nearbyCandidates st dist location maxKm).length ∧
      (findNearbyStopsWithDistance st dist location limit maxKm).Pairwise
        (fun a b => a.distance ≤ b.distance) ∧
      (∀ x ∈ findNearbyStopsWithDistance st dist location limit maxKm,
        x.distance ≤ maxKm ∧
          distO dist location.lat location.lng x.stop.stop_lat x.stop.stop_lon =
            some x.distance ∧
          x.stop ∈ st.stops.map (fun e => e.2)) ∧
      (∀ b ∈ nearbyCandidates st dist location maxKm,
        b ∉ findNearbyStopsWithDistance st dist location limit maxKm →
          ∀ a ∈ findNearbyStopsWithDistance st dist location limit maxKm,
            a.distance ≤ b.distance) ∧
      (∀ q : ℚ, ∃ rest,
        (nearbyCandidates st dist location maxKm).filter
            (fun x => x.distance == q) =
          ((findNearbyStopsWithDistance st dist location limit maxKm).filter
            (fun x => x.distance == q)) ++ rest) := by
  have hsorted : (jsSort (fun a b => decide (a.distance ≤ b.distance))
      (nearbyCandidates st dist location maxKm)).Pairwise
      (fun a b => (decide (a.distance ≤ b.distance)) = true) :=
    jsSort_pairwise _ _
      (fun a _ b _ => by
        rcases le_total a.distance b.distance with h | h
        · exact Or.inl (by simpa using h)
        · exact Or.inr (by simpa using h))
      (fun a _ b _ c _ hab hbc => by
        simp only [decide_eq_true_eq] at hab hbc ⊢
        exact le_trans hab hbc)
  have hperm := jsSort_perm (fun a b => decide (a.distance ≤ b.distance))
    (nearbyCandidates st dist location maxKm)
  refine ⟨?_, ?_, ?_, ?_, ?_⟩
  · rw [findNearbyStopsWithDistance, List.length_take, hperm.length_eq]
  · exact ((hsorted.sublist (List.take_sublist _ _)).imp
      (fun h => by simpa using h))
  · intro x hx
    have hx2 : x ∈ nearbyCandidates st dist location maxKm :=
      hperm.mem_iff.mp ((List.take_sublist _ _).mem hx)
    rw [nearbyCandidates] at hx2
    rcases List.mem_filterMap.mp hx2 with ⟨s, hs, hsx⟩
    cases hd : distO dist location.lat location.lng s.stop_lat s.stop_lon with
    | none =>
        simp only [hd] at hsx
        cases hsx
    | some d =>
        simp only [hd] at hsx
        by_cases hle : d ≤ maxKm
        · rw [if_pos hle] at hsx
          cases hsx
          exact ⟨hle, hd, hs⟩
        · rw [if_neg hle] at hsx
          cases hsx
  · intro b hb hbo a ha
    have hsplit := List.take_append_drop limit
      (jsSort (fun a b => decide (a.distance ≤ b.distance))
        (nearbyCandidates st dist location maxKm))
    have hbs : b ∈ jsSort (fun a b => decide (a.distance ≤ b.distance))
        (nearbyCandidates st dist location maxKm) := hperm.mem_iff.mpr hb
    rw [← hsplit] at hsorted hbs
    rcases List.mem_append.mp hbs with hbs | hbs
    · exact absurd hbs hbo
    · have := (List.pairwise_append.mp hsorted).2.2 a ha b hbs
      simpa using this
  · intro q
    have hstable := jsSort_filter (fun a b => decide (a.distance ≤ b.distance))
      (fun x => x.distance == q) (nearbyCandidates st dist location maxKm)
      (fun a _ b _ hqa hqb => by
        have ha : a.distance = q := by simpa using hqa
        have hb : b.distance = q := by simpa using hqb
        simp [ha, hb])
    refine ⟨(List.drop limit
      (jsSort (fun a b => decide (a.distance ≤ b.distance))
        (nearbyCandidates st dist location maxKm))).filter
          (fun x => x.distance == q), ?_⟩
    rw [← hstable, findNearbyStopsWithDistance, ← List.filter_append,
      List.take_append_drop]

/-! ## Claim C2 — ranking of `findRoutes` results -/

theorem chain'_imp_mem {α : Type} {R S : α → α → Prop} (l : List α)
    (h : l.Chain' R) (himp : ∀ a ∈ l, ∀ b ∈ l, R a b → S a b) :
    l.Chain' S := by
  induction l with
  | nil => exact List.chain'_nil
  | cons x xs ih =>
      rcases List.chain'_cons'.mp h with ⟨hhead, htail⟩
      refine List.chain'_cons'.mpr
        ⟨?_, ih htail (fun a ha b hb => himp a (by simp [ha]) b (by simp [hb]))⟩
      intro y hy
      exact himp x (by simp) y (by simp [List.mem_of_mem_head? hy]) (hhead y hy)

theorem durLE_total (a b : BusRouteResult) :
    durLE a b = true ∨ durLE b a = true := by
  rw [durLE, durLE]
  cases parseIntJS a.duration with
  | none => cases parseIntJS b.duration <;> simp
  | some x =>
      cases parseIntJS b.duration with
      | none => simp
      | some y =>
          rcases le_total x y with h | h
          · exact Or.inl (by simpa using h)
          · exact Or.inr (by simpa using h)

/-- Shape of a successful `findRoutes` call: empty, or the stable sort
by parsed duration of direct results followed by transfer results,
truncated to five. -/
theorem findRoutes_ok_cases {st : BusServiceState} {dist : ℚ → ℚ → ℚ → ℚ → ℚ}
    {pickup drop : GeoLocation} {results : List BusRouteResult}
    (h : findRoutes st dist pickup drop = Except.ok results) :
    results = [] ∨
      ∃ dRoutes tRoutes,
        dRoutes = findDirectRoutes st pickup drop
          (findNearbyStopsWithDistance st dist pickup 20 2)
          (findNearbyStopsWithDistance st dist drop 20 2) ∧
        (tRoutes = [] ∨ findTransferRoutes st pickup drop
          (findNearbyStopsWithDistance st dist pickup 20 2)
          (findNearbyStopsWithDistance st dist drop 20 2) = Except.ok tRoutes) ∧
        results = (jsSort durLE (dRoutes ++ tRoutes)).take 5 := by
  rw [findRoutes] at h
  cases hload : st.isLoaded with
  | false =>
      simp only [hload] at h
      cases h
      exact Or.inl rfl
  | true =>
      simp only [hload, Bool.not_true, Bool.false_eq_true, if_false] at h
      by_cases hemp : ((findNearbyStopsWithDistance st dist pickup 20 2).isEmpty ||
          (findNearbyStopsWithDistance st dist drop 20 2).isEmpty) = true
      · rw [if_pos hemp] at h
        cases h
        exact Or.inl rfl
      · rw [if_neg hemp] at h
        by_cases hlen : (findDirectRoutes st pickup drop
            (findNearbyStopsWithDistance st dist pickup 20 2)
            (findNearbyStopsWithDistance st dist drop 20 2)).length < 5
        · rw [if_pos hlen] at h
          cases htr : findTransferRoutes st pickup drop
              (findNearbyStopsWithDistance st dist pickup 20 2)
              (findNearbyStopsWithDistance st dist drop 20 2) with
          | error e =>
              rw [htr] at h
              cases h
          | ok tR =>
              rw [htr] at h
              cases h
              exact Or.inr ⟨_, tR, rfl, Or.inr rfl, rfl⟩
        · rw [if_neg hlen] at h
          cases h
          exact Or.inr ⟨_, [], rfl, Or.inl rfl, rfl⟩

/-- C2 (amended): `findRoutes` returns at most five itineraries, in
non-decreasing order of the leading integer parsed from the duration
string; ties are NOT re-broken by stop count or route name — the stable
sort keeps the merge order (direct results in generation order, then
transfer results). -/
theorem c2_ranking (st : BusServiceState) (dist : ℚ → ℚ → ℚ → ℚ → ℚ)
    (pickup drop : GeoLocation) (results : List BusRouteResult)
    (h : findRoutes st dist pickup drop = Except.ok results) :
    results.length ≤ 5 ∧
      results.Chain' (fun a b => durLE a b = true) ∧
      ((∀ r ∈ results, (parseIntJS r.duration).isSome = true) →
        results.Pairwise (fun a b => ∀ x y, parseIntJS a.duration = some x →
          parseIntJS b.duration = some y → x ≤ y)) := by
  rcases findRoutes_ok_cases h with rfl | ⟨dR, tR, -, -, rfl⟩
  · exact ⟨by simp, List.chain'_nil, fun _ => List.Pairwise.nil⟩
  · refine ⟨List.length_take_le 5 _, (jsSort_chain durLE durLE_total _).take 5, ?_⟩
    intro hall
    have hchain : ((jsSort durLE (dR ++ tR)).take 5).Chain'
        (fun a b => durLE a b = true) :=
      (jsSort_chain durLE durLE_total _).take 5
    have hkey : ((jsSort durLE (dR ++ tR)).take 5).Chain'
        (fun a b => (parseIntJS a.duration).getD 0 ≤ (parseIntJS b.duration).getD 0) := by
      refine chain'_imp_mem _ hchain ?_
      intro a ha b hb hab
      rcases Option.isSome_iff_exists.mp (hall a ha) with ⟨x, hx⟩
      rcases Option.isSome_iff_exists.mp (hall b hb) with ⟨y, hy⟩
      rw [durLE, hx, hy] at hab
      rw [hx, hy]
      simpa using hab
    haveI : IsTrans BusRouteResult
        (fun a b => (parseIntJS a.duration).getD 0 ≤ (parseIntJS b.duration).getD 0) :=
      ⟨fun _ _ _ hab hbc => le_trans hab hbc⟩
    refine (List.chain'_iff_pairwise.mp hkey).imp ?_
    intro a b hk x y hxa hyb
    rw [hxa, hyb] at hk
    simpa using hk

/-- C2 (counterexample to the tie-break clause): on feed B all three
returned itineraries have duration "10 mins"; the first has 3 stops and
route name "Z", the second 2 stops and route name "A" — the claimed
fewer-stops / smaller-name tie-break would have returned them in the
opposite order. -/
theorem c2_tie_break_cex :
    (findRoutes stB distManhattan pickupB dropB).toOption.map
        (fun l => l.map (fun r => (r.route_name, r.stops_count, r.duration))) =
      some [("Z", 3, "10 mins"), ("A", 2, "10 mins"), ("Z + Z", 4, "10 mins")] ∧
      ("A" : String) < "Z" ∧ (2 : ℕ) < 3 := by
  with_unfolding_all decide

/-- Witness for C2 on feed B (hypotheses discharged by evaluation). -/
theorem c2_ranking_witness :
    resultsB.length ≤ 5 ∧
      resultsB.Chain' (fun a b => durLE a b = true) ∧
      resultsB.Pairwise (fun a b => ∀ x y, parseIntJS a.duration = some x →
        parseIntJS b.duration = some y → x ≤ y) := by
  have h := c2_ranking stB distManhattan pickupB dropB resultsB
    (by with_unfolding_all decide)
  exact ⟨h.1, h.2.1, h.2.2 (by with_unfolding_all decide)⟩

/-! ## Claim C6 — fare formula -/

theorem fdrBody_mem {st : BusServiceState} {pickup drop : GeoLocation}
    {routeId : String} {routeStops : List String} {pS dS : NearbyStop}
    {acc : List BusRouteResult × List String} {r : BusRouteResult}
    (h : r ∈ (fdrBody st pickup drop routeId routeStops pS dS acc).1) :
    r ∈ acc.1 ∨ FromDirectBuild st pickup drop r := by
  rw [fdrBody] at h
  cases h0 : jsIndexOf routeStops pS.stop.stop_id with
  | none =>
      simp only [h0] at h
      exact Or.inl h
  | some pIndex =>
      simp only [h0] at h
      cases h1 : jsIndexOf routeStops dS.stop.stop_id with
      | none =>
          simp only [h1] at h
          exact Or.inl h
      | some dIndex =>
          simp only [h1] at h
          by_cases h2 : pIndex < dIndex
          · rw [if_pos h2] at h
            cases h3 : amGet? st.routes routeId with
            | none =>
                simp only [h3] at h
                exact Or.inl h
            | some route =>
                simp only [h3] at h
                cases h4 : amGet? st.stopTimesByStopId pS.stop.stop_id with
                | none =>
                    simp only [h4] at h
                    exact Or.inl h
                | some pStopTimes =>
                    simp only [h4] at h
                    cases h5 : pStopTimes.find? (validTripPred st routeId dS.stop.stop_id) with
                    | none =>
                        simp only [h5] at h
                        exact Or.inl h
                    | some validTrip =>
                        simp only [h5] at h
                        cases h6 : amGet? st.trips validTrip.trip_id with
                        | none =>
                            simp only [h6] at h
                            exact Or.inl h
                        | some trip =>
                            simp only [h6] at h
                            cases h7 : amGet? st.stopTimesByTripId validTrip.trip_id with
                            | none =>
                                simp only [h7] at h
                                exact Or.inl h
                            | some tripStops =>
                                simp only [h7] at h
                                cases h8 : tripStops.find? (fun ts =>
                                    ts.stop_id == dS.stop.stop_id) with
                                | none =>
                                    simp only [h8] at h
                                    exact Or.inl h
                                | some dSt =>
                                    simp only [h8] at h
                                    by_cases h9 : (acc.2.contains
                                        (jsOr route.route_short_name route.route_long_name ++
                                          "-" ++ pS.stop.stop_name ++ "-" ++
                                          dS.stop.stop_name)) = true
                                    · rw [if_pos h9] at h
                                      exact Or.inl h
                                    · rw [if_neg h9] at h
                                      rcases List.mem_append.mp h with h10 | h10
                                      · exact Or.inl h10
                                      · rcases List.mem_singleton.mp h10 with rfl
                                        exact Or.inr ⟨pS, dS, trip, route, validTrip,
                                          dSt, tripStops, _, rfl⟩
          · rw [if_neg h2] at h
            exact Or.inl h

theorem foldl_fdrBody_mem {st : BusServiceState} {pickup drop : GeoLocation}
    {routeId : String} {routeStops : List String} {pS : NearbyStop}
    {r : BusRouteResult} :
    ∀ (dStops : List NearbyStop) (acc : List BusRouteResult × List String),
      r ∈ (dStops.foldl (fun a d => fdrBody st pickup drop routeId routeStops pS d a)
        acc).1 →
      r ∈ acc.1 ∨ FromDirectBuild st pickup drop r := by
  intro dStops
  induction dStops with
  | nil => exact fun acc h => Or.inl h
  | cons d rest ih =>
      intro acc h
      rw [List.foldl_cons] at h
      rcases ih _ h with h2 | h2
      · exact fdrBody_mem h2
      · exact Or.inr h2

theorem fdrPLoop_mem {st : BusServiceState} {pickup drop : GeoLocation}
    {routeId : String} {routeStops : List String} {dStops : List NearbyStop}
    {r : BusRouteResult} :
    ∀ (pStops : List NearbyStop) (acc : List BusRouteResult × List String),
      r ∈ (fdrPLoop st pickup drop routeId routeStops dStops pStops acc).1 →
      r ∈ acc.1 ∨ FromDirectBuild st pickup drop r := by
  intro pStops
  induction pStops with
  | nil => exact fun acc h => Or.inl h
  | cons p rest ih =>
      intro acc h
      rw [fdrPLoop] at h
      simp only [fdrDLoop] at h
      split at h
      · exact foldl_fdrBody_mem _ _ h
      · rcases ih _ h with h2 | h2
        · exact foldl_fdrBody_mem _ _ h2
        · exact Or.inr h2

theorem fdrRouteLoop_mem {st : BusServiceState} {pickup drop : GeoLocation}
    {pRoutesMap dRoutesMap : List (String × List NearbyStop)} {r : BusRouteResult} :
    ∀ (routeIds : List String) (acc : List BusRouteResult × List String),
      r ∈ (fdrRouteLoop st pickup drop pRoutesMap dRoutesMap routeIds acc).1 →
      r ∈ acc.1 ∨ FromDirectBuild st pickup drop r := by
  intro routeIds
  induction routeIds with
  | nil => exact fun acc h => Or.inl h
  | cons routeId rest ih =>
      intro acc h
      rw [fdrRouteLoop] at h
      cases hsr : amGet? st.stopsByRoute routeId with
      | none =>
          simp only [hsr] at h
          exact ih _ h
      | some routeStops =>
          simp only [hsr] at h
          split at h
          · exact fdrPLoop_mem _ _ h
          · rcases ih _ h with h2 | h2
            · exact fdrPLoop_mem _ _ h2
            · exact Or.inr h2

theorem findDirectRoutes_mem {st : BusServiceState} {pickup drop : GeoLocation}
    {pStops dStops : List NearbyStop} {r : BusRouteResult}
    (h : r ∈ findDirectRoutes st pickup drop pStops dStops) :
    FromDirectBuild st pickup drop r := by
  rw [findDirectRoutes] at h
  rcases fdrRouteLoop_mem _ _ h with h2 | h2
  · cases h2
  · exact h2

theorem buildFromCandidate_ok {st : BusServiceState} {pickup drop : GeoLocation}
    {c : TransferCandidate} {r : BusRouteResult}
    (h : buildFromCandidate st pickup drop c = Except.ok r) :
    FromTransferBuild st pickup drop r := by
  rw [buildFromCandidate] at h
  cases h0 : amGet? st.routes c.pRouteId with
  | none =>
      simp only [h0] at h
      cases h
  | some route1 =>
      simp only [h0] at h
      cases h1 : amGet? st.routes c.dRouteId with
      | none =>
          simp only [h1] at h
          cases h
      | some route2 =>
          simp only [h1] at h
          cases h
          exact ⟨c.pStopItem, c.dStopItem, c.leg1.trip, route1, c.leg2.trip, route2,
            c.leg1.start, c.leg1.endSt, c.leg2.start, c.leg2.endSt, c.leg1.stops,
            c.leg2.stops, c.transferStop, rfl⟩

theorem buildRouteResult_fare (st : BusServiceState) (pickup drop : GeoLocation)
    (pS dS : NearbyStop) (trip : Trip) (route : Route) (pSt dSt : StopTime)
    (tss : List StopTime) (rn : String) :
    (buildRouteResult st pickup drop pS dS trip route pSt dSt tss rn).fare =
      ⌈busFareSum (buildRouteResult st pickup drop pS dS trip route pSt dSt
        tss rn).segments⌉ := by
  simp only [buildRouteResult, busFareSum, segFare, List.map_cons, List.map_nil,
    List.sum_cons, List.sum_nil, Option.getD_some]
  congr 1
  ring

theorem buildTransferRouteResult_fare (st : BusServiceState)
    (pickup drop : GeoLocation) (pS dS : NearbyStop) (t1 : Trip) (r1 : Route)
    (t2 : Trip) (r2 : Route) (pSt tSt1 tSt2 dSt : StopTime)
    (ts1 ts2 : List StopTime) (tStop : Stop) :
    (buildTransferRouteResult st pickup drop pS dS t1 r1 t2 r2 pSt tSt1 tSt2 dSt
      ts1 ts2 tStop).fare =
      ⌈busFareSum (buildTransferRouteResult st pickup drop pS dS t1 r1 t2 r2 pSt
        tSt1 tSt2 dSt ts1 ts2 tStop).segments⌉ := by
  simp only [buildTransferRouteResult, busFareSum, segFare, List.map_cons,
    List.map_nil, List.sum_cons, List.sum_nil, Option.getD_some]
  congr 1
  ring

theorem length_filterMap_eq {α β : Type} (g : α → Option β) (l : List α) :
    (l.filterMap g).length = (l.filter (fun x => (g x).isSome)).length := by
  induction l with
  | nil => rfl
  | cons x xs ih =>
      cases hg : g x <;>
        simp [List.filterMap_cons, List.filter_cons, hg, ih]

/-- The number of stops in a leg as the engine computes it: the
stop-times with sequence in range whose stop id resolves in the stops
index (dangling references are dropped by `extractRouteStops`). -/
theorem extractRouteStops_length (st : BusServiceState) (tss : List StopTime)
    (a b : Option ℤ) :
    (extractRouteStops st tss a b).length =
      (tss.filter (fun x => (geB x.stop_sequence a && leB x.stop_sequence b) &&
        (amGet? st.stops x.stop_id).isSome)).length := by
  rw [extractRouteStops, length_filterMap_eq]
  have hp : ∀ x : StopTime,
      ((match amGet? st.stops x.stop_id with
        | some s => some (⟨s.stop_name, s.stop_lat, s.stop_lon, x.stop_sequence,
            x.arrival_time⟩ : StopPoint)
        | none => none) : Option StopPoint).isSome =
        (amGet? st.stops x.stop_id).isSome := by
    intro x
    cases amGet? st.stops x.stop_id <;> rfl
  rw [List.filter_congr (fun x _ => hp x)]
  rw [((jsSort_perm (fun x y => seqLE x.stop_sequence y.stop_sequence)
      (tss.filter (fun x => geB x.stop_sequence a && leB x.stop_sequence b))).filter
      (fun x => (amGet? st.stops x.stop_id).isSome)).length_eq]
  rw [List.filter_filter]
  exact congrArg List.length
    (List.filter_congr (fun x _ => Bool.and_comm _ _))

/-- C6 (amended): for every itinerary `findRoutes` returns, the fare is
the ceiling of the sum over its bus segments of `5 + 1.5 ×` (stops in
the segment), computed exactly over ℚ; and the per-leg stop count the
engine uses is the number of in-range stop-times whose stop id resolves
in the stops index (dangling stop-time rows are excluded, unlike the
claim's plain in-range count). -/
theorem c6_fare (st : BusServiceState) (dist : ℚ → ℚ → ℚ → ℚ → ℚ)
    (pickup drop : GeoLocation) (results : List BusRouteResult)
    (r : BusRouteResult) (h : findRoutes st dist pickup drop = Except.ok results)
    (hr : r ∈ results) :
    r.fare = ⌈busFareSum r.segments⌉ ∧
      ∀ (tss : List StopTime) (a b : Option ℤ),
        (extractRouteStops st tss a b).length =
          (tss.filter (fun x => (geB x.stop_sequence a && leB x.stop_sequence b) &&
            (amGet? st.stops x.stop_id).isSome)).length := by
  refine ⟨?_, fun tss a b => extractRouteStops_length st tss a b⟩
  rcases findRoutes_ok_cases h with rfl | ⟨dR, tR, hd, ht, rfl⟩
  · cases hr
  · have hmem : r ∈ dR ++ tR :=
      (jsSort_perm durLE (dR ++ tR)).mem_iff.mp ((List.take_sublist _ _).mem hr)
    rcases List.mem_append.mp hmem with hdm | htm
    · rw [hd] at hdm
      rcases findDirectRoutes_mem hdm with ⟨pS, dS, trip, route, pSt, dSt, tss, rn, rfl⟩
      exact buildRouteResult_fare st pickup drop pS dS trip route pSt dSt tss rn
    · rcases ht with rfl | htr
      · cases htm
      · rw [findTransferRoutes] at htr
        rcases mapME_ok_mem htr htm with ⟨c, -, hbuild⟩
        rcases buildFromCandidate_ok hbuild with
          ⟨pS, dS, t1, r1, t2, r2, pSt, tSt1, tSt2, dSt, ts1, ts2, tStop, rfl⟩
        exact buildTransferRouteResult_fare st pickup drop pS dS t1 r1 t2 r2 pSt
          tSt1 tSt2 dSt ts1 ts2 tStop

/-- C6 (counterexample to the plain in-range count): on feed E the trip
has three stop-times with sequence in [1, 3] but the middle one
references the missing stop M, so the returned fare is
`ceil(5 + 1.5·2) = 8`, not `ceil(5 + 1.5·3) = 10`. -/
theorem c6_fare_cex :
    (findRoutes stE distManhattan pickupB dropB).toOption.map
        (fun l => l.map (fun r => r.fare)) = some [8] ∧
      (([⟨"T1", "08:00:00", "08:00:00", "A", some 1⟩,
          ⟨"T1", "08:05:00", "08:05:30", "M", some 2⟩,
          ⟨"T1", "08:10:00", "08:10:00", "B", some 3⟩] : List StopTime).filter
        (fun x => geB x.stop_sequence (some 1) && leB x.stop_sequence (some 3))).length
        = 3 ∧
      amGet? stE.stopTimesByTripId "T1" =
        some [⟨"T1", "08:00:00", "08:00:00", "A", some 1⟩,
          ⟨"T1", "08:05:00", "08:05:30", "M", some 2⟩,
          ⟨"T1", "08:10:00", "08:10:00", "B", some 3⟩] ∧
      amGet? stE.stops "M" = none ∧
      (⌈(5 : ℚ) + (3 : ℚ) * (3 / 2)⌉ : ℤ) = 10 ∧ (8 : ℤ) ≠ 10 := by
  with_unfolding_all decide

/-- Witness for C6 on feed B: the transfer itinerary `rTB` is among the
results and satisfies the fare equation. -/
theorem c6_fare_witness :
    rTB.fare = ⌈busFareSum rTB.segments⌉ ∧
      ∀ (tss : List StopTime) (a b : Option ℤ),
        (extractRouteStops stB tss a b).length =
          (tss.filter (fun x => (geB x.stop_sequence a && leB x.stop_sequence b) &&
            (amGet? stB.stops x.stop_id).isSome)).length :=
  c6_fare stB distManhattan pickupB dropB resultsB rTB
    (by with_unfolding_all decide) (by with_unfolding_all decide)

/-! ## Claim C9 — the transfer stop appears in both legs -/

theorem gtB_some {x y : Option ℤ} (h : gtB x y = true) :
    ∃ p q : ℤ, y = some p ∧ x = some q ∧ p < q := by
  cases x with
  | none => cases y <;> cases h
  | some q =>
      cases y with
      | none => cases h
      | some p => exact ⟨p, q, rfl, rfl, by simpa [gtB] using h⟩

theorem mem_q_range {a b : ℤ} {x : StopTime}
    (hx : (geB x.stop_sequence (some a) && leB x.stop_sequence (some b)) = true) :
    ∃ k, x.stop_sequence = some k ∧ a ≤ k ∧ k ≤ b := by
  rw [Bool.and_eq_true] at hx
  cases hs : x.stop_sequence with
  | none =>
      rw [hs] at hx
      cases hx.1
  | some k =>
      rw [hs] at hx
      exact ⟨k, rfl, by simpa [geB] using hx.1, by simpa [leB] using hx.2⟩

/-- The pairwise facts shared by the first/last-element arguments below:
the in-range elements, sorted by sequence, are ordered and have pairwise
distinct sequences. -/
theorem extract_sorted_facts (ts : List StopTime) (a b : ℤ)
    (hdist : ts.Pairwise (fun x y => x.stop_sequence ≠ y.stop_sequence)) :
    (jsSort (fun x y => seqLE x.stop_sequence y.stop_sequence)
        (ts.filter (fun x => geB x.stop_sequence (some a) &&
          leB x.stop_sequence (some b)))).Pairwise
        (fun x y => seqLE x.stop_sequence y.stop_sequence = true) ∧
      (jsSort (fun x y => seqLE x.stop_sequence y.stop_sequence)
        (ts.filter (fun x => geB x.stop_sequence (some a) &&
          leB x.stop_sequence (some b)))).Pairwise
        (fun x y => x.stop_sequence ≠ y.stop_sequence) := by
  constructor
  · apply jsSort_pairwise
    · intro x _ y _
      cases hx : x.stop_sequence with
      | none => exact Or.inl (by simp [seqLE])
      | some k =>
          cases hy : y.stop_sequence with
          | none => exact Or.inl (by simp [seqLE])
          | some m =>
              rcases le_total k m with h | h
              · exact Or.inl (by simp [seqLE, h])
              · exact Or.inr (by simp [seqLE, h])
    · intro x hx y hy z hz hxy hyz
      rcases mem_q_range (List.mem_filter.mp hx).2 with ⟨k, hk, -, -⟩
      rcases mem_q_range (List.mem_filter.mp hy).2 with ⟨m, hm, -, -⟩
      rcases mem_q_range (List.mem_filter.mp hz).2 with ⟨n, hn, -, -⟩
      rw [hk, hm] at hxy
      rw [hm, hn] at hyz
      rw [hk, hn]
      simp only [seqLE, decide_eq_true_eq] at hxy hyz ⊢
      exact le_trans hxy hyz
  · exact ((jsSort_perm _ _).pairwise_iff (fun hxy => Ne.symm hxy)).mpr
      (hdist.filter _)

/-- The last element of an extracted leg is the stop-time with the
maximal (= `endSeq`) sequence, provided sequences are distinct within
the trip and its stop resolves. -/
theorem extractRouteStops_getLast (st : BusServiceState) (ts : List StopTime)
    (a b : ℤ) (e : StopTime) (s : Stop)
    (he : e ∈ ts) (hseq : e.stop_sequence = some b) (hab : a ≤ b)
    (hdist : ts.Pairwise (fun x y => x.stop_sequence ≠ y.stop_sequence))
    (hres : amGet? st.stops e.stop_id = some s) :
    (extractRouteStops st ts (some a) (some b)).getLast? =
      some ⟨s.stop_name, s.stop_lat, s.stop_lon, e.stop_sequence, e.arrival_time⟩ := by
  have hqe : (geB e.stop_sequence (some a) && leB e.stop_sequence (some b)) = true := by
    simp [geB, leB, hseq, hab]
  have hef : e ∈ ts.filter (fun x => geB x.stop_sequence (some a) &&
      leB x.stop_sequence (some b)) := List.mem_filter.mpr ⟨he, hqe⟩
  have hes : e ∈ jsSort (fun x y => seqLE x.stop_sequence y.stop_sequence)
      (ts.filter (fun x => geB x.stop_sequence (some a) &&
        leB x.stop_sequence (some b))) := mem_jsSort.mpr hef
  rcases extract_sorted_facts ts a b hdist with ⟨hsorted, hne⟩
  rcases List.append_of_mem hes with ⟨l1, l2, hsplit⟩
  have hl2 : l2 = [] := by
    cases l2 with
    | nil => rfl
    | cons z zs =>
        exfalso
        rw [hsplit] at hsorted hne
        have hz : z ∈ ts.filter (fun x => geB x.stop_sequence (some a) &&
            leB x.stop_sequence (some b)) := by
          apply mem_jsSort.mp
          rw [hsplit]
          simp
        rcases mem_q_range (List.mem_filter.mp hz).2 with ⟨k, hk, -, hkb⟩
        have hez : seqLE e.stop_sequence z.stop_sequence = true :=
          (List.rel_of_pairwise_cons (List.pairwise_append.mp hsorted).2.1)
            (by simp)
        have hnez : e.stop_sequence ≠ z.stop_sequence :=
          (List.rel_of_pairwise_cons (List.pairwise_append.mp hne).2.1)
            (by simp)
        rw [hseq, hk] at hez
        simp only [seqLE, decide_eq_true_eq] at hez
        exact hnez (by rw [hseq, hk, le_antisymm hkb hez])
  subst hl2
  rw [extractRouteStops, hsplit, List.filterMap_append, List.filterMap_cons]
  simp only [hres, List.filterMap_nil]
  exact List.getLast?_concat _

/-- The first element of an extracted leg is the stop-time with the
minimal (= `startSeq`) sequence, under the same provisos. -/
theorem extractRouteStops_head (st : BusServiceState) (ts : List StopTime)
    (a b : ℤ) (e : StopTime) (s : Stop)
    (he : e ∈ ts) (hseq : e.stop_sequence = some a) (hab : a ≤ b)
    (hdist : ts.Pairwise (fun x y => x.stop_sequence ≠ y.stop_sequence))
    (hres : amGet? st.stops e.stop_id = some s) :
    (extractRouteStops st ts (some a) (some b)).head? =
      some ⟨s.stop_name, s.stop_lat, s.stop_lon, e.stop_sequence, e.arrival_time⟩ := by
  have hqe : (geB e.stop_sequence (some a) && leB e.stop_sequence (some b)) = true := by
    simp [geB, leB, hseq, hab]
  have hef : e ∈ ts.filter (fun x => geB x.stop_sequence (some a) &&
      leB x.stop_sequence (some b)) := List.mem_filter.mpr ⟨he, hqe⟩
  have hes : e ∈ jsSort (fun x y => seqLE x.stop_sequence y.stop_sequence)
      (ts.filter (fun x => geB x.stop_sequence (some a) &&
        leB x.stop_sequence (some b))) := mem_jsSort.mpr hef
  rcases extract_sorted_facts ts a b hdist with ⟨hsorted, hne⟩
  rcases List.append_of_mem hes with ⟨l1, l2, hsplit⟩
  have hl1 : l1 = [] := by
    cases l1 with
    | nil => rfl
    | cons z zs =>
        exfalso
        rw [hsplit] at hsorted hne
        have hz : z ∈ ts.filter (fun x => geB x.stop_sequence (some a) &&
            leB x.stop_sequence (some b)) := by
          apply mem_jsSort.mp
          rw [hsplit]
          simp
        rcases mem_q_range (List.mem_filter.mp hz).2 with ⟨k, hk, hak, -⟩
        have hze : seqLE z.stop_sequence e.stop_sequence = true :=
          (List.pairwise_append.mp hsorted).2.2 z (by simp) e (by simp)
        have hnez : z.stop_sequence ≠ e.stop_sequence :=
          (List.pairwise_append.mp hne).2.2 z (by simp) e (by simp)
        rw [hseq, hk] at hze
        simp only [seqLE, decide_eq_true_eq] at hze
        exact hnez (by rw [hseq, hk, le_antisymm hze hak])
  subst hl1
  rw [extractRouteStops, hsplit, List.nil_append, List.filterMap_cons]
  simp only [hres]
  rfl

/-- C9: in every transfer itinerary, the transfer stop is included in
both legs' extracted stop lists — last of leg 1 ([pSt.seq, tSt1.seq] is
inclusive on the right) and first of leg 2 (inclusive on the left) — so
`stops_count = |leg1| + |leg2|` counts it twice, the `path` holds its
coordinates at the two consecutive positions `|leg1| - 1` and `|leg1|`,
and the fare formula charges both legs for it.  The hypotheses are the
data-consistency facts guaranteed for feeds built by `loadData`:
distinct sequences within a trip and `stopTimesByStopId` entries keyed
by their own stop id. -/
theorem c9_transfer_stop_double_counted (st : BusServiceState)
    (pStops dStops : List NearbyStop) (pickup drop : GeoLocation)
    (c : TransferCandidate) (r1 r2 : Route)
    (hc : c ∈ transferCandidates st pStops dStops)
    (h1 : c.leg1.stops.Pairwise (fun x y => x.stop_sequence ≠ y.stop_sequence))
    (h2 : c.leg2.stops.Pairwise (fun x y => x.stop_sequence ≠ y.stop_sequence))
    (hmem2 : c.leg2.start ∈ c.leg2.stops)
    (hid2 : c.leg2.start.stop_id = c.leg1.endSt.stop_id) :
    (buildTransferRouteResult st pickup drop c.pStopItem c.dStopItem c.leg1.trip
        r1 c.leg2.trip r2 c.leg1.start c.leg1.endSt c.leg2.start c.leg2.endSt
        c.leg1.stops c.leg2.stops c.transferStop).stops_count =
      (extractRouteStops st c.leg1.stops c.leg1.start.stop_sequence
        c.leg1.endSt.stop_sequence).length +
      (extractRouteStops st c.leg2.stops c.leg2.start.stop_sequence
        c.leg2.endSt.stop_sequence).length ∧
    1 ≤ (extractRouteStops st c.leg1.stops c.leg1.start.stop_sequence
        c.leg1.endSt.stop_sequence).length ∧
    1 ≤ (extractRouteStops st c.leg2.stops c.leg2.start.stop_sequence
        c.leg2.endSt.stop_sequence).length ∧
    (buildTransferRouteResult st pickup drop c.pStopItem c.dStopItem c.leg1.trip
        r1 c.leg2.trip r2 c.leg1.start c.leg1.endSt c.leg2.start c.leg2.endSt
        c.leg1.stops c.leg2.stops c.transferStop).path[
      (extractRouteStops st c.leg1.stops c.leg1.start.stop_sequence
        c.leg1.endSt.stop_sequence).length - 1]? =
      some ⟨c.transferStop.stop_lat, c.transferStop.stop_lon,
        c.transferStop.stop_name, c.leg1.endSt.stop_sequence⟩ ∧
    (buildTransferRouteResult st pickup drop c.pStopItem c.dStopItem c.leg1.trip
        r1 c.leg2.trip r2 c.leg1.start c.leg1.endSt c.leg2.start c.leg2.endSt
        c.leg1.stops c.leg2.stops c.transferStop).path[
      (extractRouteStops st c.leg1.stops c.leg1.start.stop_sequence
        c.leg1.endSt.stop_sequence).length]? =
      some ⟨c.transferStop.stop_lat, c.transferStop.stop_lon,
        c.transferStop.stop_name, c.leg2.start.stop_sequence⟩ ∧
    (buildTransferRouteResult st pickup drop c.pStopItem c.dStopItem c.leg1.trip
        r1 c.leg2.trip r2 c.leg1.start c.leg1.endSt c.leg2.start c.leg2.endSt
        c.leg1.stops c.leg2.stops c.transferStop).fare =
      ⌈(5 : ℚ) + ((extractRouteStops st c.leg1.stops c.leg1.start.stop_sequence
          c.leg1.endSt.stop_sequence).length : ℚ) * (3 / 2) + 5 +
        ((extractRouteStops st c.leg2.stops c.leg2.start.stop_sequence
          c.leg2.endSt.stop_sequence).length : ℚ) * (3 / 2)⌉ := by
  rcases transferCandidates_mem hc with ⟨seen, pR, pS, tId, dR, dS, htry⟩
  rcases tcTry_some htry with ⟨-, -, -, -, hstop, hf1, hf2, -⟩
  rcases findTripForLeg_some hf1 with ⟨hmem1, hids1, hgt1, -⟩
  rcases findTripForLeg_some hf2 with ⟨-, -, hgt2, -⟩
  rcases gtB_some hgt1 with ⟨a1, b1, hsa1, hsb1, hab1⟩
  rcases gtB_some hgt2 with ⟨a2, b2, hsa2, hsb2, hab2⟩
  have hres1 : amGet? st.stops c.leg1.endSt.stop_id = some c.transferStop := by
    rw [hids1]
    exact hstop
  have hres2 : amGet? st.stops c.leg2.start.stop_id = some c.transferStop := by
    rw [hid2, hids1]
    exact hstop
  have hlast : (extractRouteStops st c.leg1.stops c.leg1.start.stop_sequence
      c.leg1.endSt.stop_sequence).getLast? =
      some ⟨c.transferStop.stop_name, c.transferStop.stop_lat,
        c.transferStop.stop_lon, c.leg1.endSt.stop_sequence,
        c.leg1.endSt.arrival_time⟩ := by
    rw [hsa1, hsb1]
    have h0 := extractRouteStops_getLast st c.leg1.stops a1 b1 c.leg1.endSt
      c.transferStop hmem1 hsb1 (le_of_lt hab1) h1 hres1
    rw [hsb1] at h0
    exact h0
  have hhead : (extractRouteStops st c.leg2.stops c.leg2.start.stop_sequence
      c.leg2.endSt.stop_sequence).head? =
      some ⟨c.transferStop.stop_name, c.transferStop.stop_lat,
        c.transferStop.stop_lon, c.leg2.start.stop_sequence,
        c.leg2.start.arrival_time⟩ := by
    rw [hsa2, hsb2]
    have h0 := extractRouteStops_head st c.leg2.stops a2 b2 c.leg2.start
      c.transferStop hmem2 hsa2 (le_of_lt hab2) h2 hres2
    rw [hsa2] at h0
    exact h0
  have hl1pos : 0 < (extractRouteStops st c.leg1.stops c.leg1.start.stop_sequence
      c.leg1.endSt.stop_sequence).length := by
    rcases List.getLast?_isSome.mp (by rw [hlast]; rfl) with -
    · exact List.length_pos.mpr (List.getLast?_isSome.mp (by rw [hlast]; rfl))
  have hl2pos : 0 < (extractRouteStops st c.leg2.stops c.leg2.start.stop_sequence
      c.leg2.endSt.stop_sequence).length := by
    exact List.length_pos.mpr (by
      intro hnil
      rw [hnil] at hhead
      cases hhead)
  refine ⟨rfl, hl1pos, hl2pos, ?_, ?_, rfl⟩
  · have hpath : (buildTransferRouteResult st pickup drop c.pStopItem c.dStopItem
        c.leg1.trip r1 c.leg2.trip r2 c.leg1.start c.leg1.endSt c.leg2.start
        c.leg2.endSt c.leg1.stops c.leg2.stops c.transferStop).path =
        (extractRouteStops st c.leg1.stops c.leg1.start.stop_sequence
          c.leg1.endSt.stop_sequence).map
            (fun s => ⟨s.lat, s.lng, s.name, s.sequence⟩) ++
        (extractRouteStops st c.leg2.stops c.leg2.start.stop_sequence
          c.leg2.endSt.stop_sequence).map
            (fun s => ⟨s.lat, s.lng, s.name, s.sequence⟩) := rfl
    rw [hpath, List.getElem?_append_left
      (by
        rw [List.length_map]
        exact Nat.sub_lt hl1pos Nat.one_pos)]
    rw [show (extractRouteStops st c.leg1.stops c.leg1.start.stop_sequence
        c.leg1.endSt.stop_sequence).length - 1 =
      ((extractRouteStops st c.leg1.stops c.leg1.start.stop_sequence
        c.leg1.endSt.stop_sequence).map
          (fun s => (⟨s.lat, s.lng, s.name, s.sequence⟩ : PathMapPoint))).length - 1 by
      rw [List.length_map]]
    rw [← List.getLast?_eq_getElem?, List.getLast?_map, hlast]
    rfl
  · have hpath : (buildTransferRouteResult st pickup drop c.pStopItem c.dStopItem
        c.leg1.trip r1 c.leg2.trip r2 c.leg1.start c.leg1.endSt c.leg2.start
        c.leg2.endSt c.leg1.stops c.leg2.stops c.transferStop).path =
        (extractRouteStops st c.leg1.stops c.leg1.start.stop_sequence
          c.leg1.endSt.stop_sequence).map
            (fun s => ⟨s.lat, s.lng, s.name, s.sequence⟩) ++
        (extractRouteStops st c.leg2.stops c.leg2.start.stop_sequence
          c.leg2.endSt.stop_sequence).map
            (fun s => ⟨s.lat, s.lng, s.name, s.sequence⟩) := rfl
    rw [hpath, List.getElem?_append_right (by rw [List.length_map])]
    rw [show (extractRouteStops st c.leg1.stops c.leg1.start.stop_sequence
        c.leg1.endSt.stop_sequence).length -
      ((extractRouteStops st c.leg1.stops c.leg1.start.stop_sequence
        c.leg1.endSt.stop_sequence).map
          (fun s => (⟨s.lat, s.lng, s.name, s.sequence⟩ : PathMapPoint))).length = 0 by
      rw [List.length_map, Nat.sub_self]]
    rw [← List.head?_eq_getElem?, List.head?_map, hhead]
    rfl

/-- Witness for C9 at the feed-B candidate `candB` (legs A→M and M→B on
trip TZ; the transfer stop M is last of leg 1 and first of leg 2). -/
theorem c9_transfer_stop_double_counted_witness :
    rTB.stops_count =
      (extractRouteStops stB candB.leg1.stops candB.leg1.start.stop_sequence
        candB.leg1.endSt.stop_sequence).length +
      (extractRouteStops stB candB.leg2.stops candB.leg2.start.stop_sequence
        candB.leg2.endSt.stop_sequence).length ∧
    1 ≤ (extractRouteStops stB candB.leg1.stops candB.leg1.start.stop_sequence
        candB.leg1.endSt.stop_sequence).length ∧
    1 ≤ (extractRouteStops stB candB.leg2.stops candB.leg2.start.stop_sequence
        candB.leg2.endSt.stop_sequence).length ∧
    rTB.path[(extractRouteStops stB candB.leg1.stops
        candB.leg1.start.stop_sequence candB.leg1.endSt.stop_sequence).length - 1]? =
      some ⟨candB.transferStop.stop_lat, candB.transferStop.stop_lon,
        candB.transferStop.stop_name, candB.leg1.endSt.stop_sequence⟩ ∧
    rTB.path[(extractRouteStops stB candB.leg1.stops
        candB.leg1.start.stop_sequence candB.leg1.endSt.stop_sequence).length]? =
      some ⟨candB.transferStop.stop_lat, candB.transferStop.stop_lon,
        candB.transferStop.stop_name, candB.leg2.start.stop_sequence⟩ ∧
    rTB.fare = ⌈(5 : ℚ) + ((extractRouteStops stB candB.leg1.stops
          candB.leg1.start.stop_sequence candB.leg1.endSt.stop_sequence).length : ℚ) *
            (3 / 2) + 5 +
        ((extractRouteStops stB candB.leg2.stops candB.leg2.start.stop_sequence
          candB.leg2.endSt.stop_sequence).length : ℚ) * (3 / 2)⌉ :=
  c9_transfer_stop_double_counted stB psB dsB pickupB dropB candB routeRZ routeRZ
    (by with_unfolding_all decide) (by with_unfolding_all decide)
    (by with_unfolding_all decide) (by with_unfolding_all decide)
    (by with_unfolding_all decide)

/-! ## Claim C10 — rounding directions of durations -/

/-- C10: bus-leg and transfer-wait durations are floored
(`calculateDurationInMinutes` is `Math.floor((end − start)/60)`, used for
both bus legs and the transfer wait) while walk durations are ceiled
(`Math.ceil(metres / 80)`); on feed T a 30-second bus leg is reported as
"0 mins" and contributes 0 to the itinerary's total duration of
"14 mins" = 7 + 0 + 7. -/
theorem c10_duration_rounding :
    (∀ (s t : String) (x y : ℚ), parseTime s = some x → parseTime t = some y →
      calculateDurationInMinutes s t = some ⌊(y - x) / 60⌋) ∧
      (∀ q : ℚ, walkMinutes q = ⌈q * 1000 / 80⌉) ∧
      parseTime "08:00:00" = some 28800 ∧
      parseTime "08:00:30" = some 28830 ∧
      (findRoutes stT distManhattan pickupT dropT).toOption.map
        (fun l => l.map (fun r =>
          (r.duration, r.departure_time, r.arrival_time,
            r.segments.map (fun seg => seg.duration)))) =
        some [("14 mins", "08:00:00", "08:00:30",
          ["7 mins", "0 mins", "7 mins"])] := by
  refine ⟨?_, fun q => rfl, ?_, ?_, by with_unfolding_all decide⟩
  · intro s t x y hx hy
    rw [calculateDurationInMinutes, hx, hy]
  · simp +decide [parseTime, numberJSChars, charTrim, splitCharAux, digitsVal]
    norm_num
  · simp +decide [parseTime, numberJSChars, charTrim, splitCharAux, digitsVal]
    norm_num

/-- Witness for C10: the floor formula applied to the 30-second leg of
feed T gives 0 minutes. -/
theorem c10_duration_rounding_witness :
    calculateDurationInMinutes "08:00:00" "08:00:30" =
      some ⌊((28830 : ℚ) - 28800) / 60⌋ :=
  c10_duration_rounding.1 "08:00:00" "08:00:30" 28800 28830
    (by simp +decide [parseTime, numberJSChars, charTrim, splitCharAux, digitsVal]
        norm_num)
    (by simp +decide [parseTime, numberJSChars, charTrim, splitCharAux, digitsVal]
        norm_num)

end BusSpec

